import Mathlib

/-!
# piSecurity: the `PIHome` application object (`src/piHome.cpp`)

A shallow embedding of `PIHome::PIHome`, `PIHome::update`, `PIHome::draw` and
`PIHome::isRunning`.

* Every call into wiringPi, GLFW, ImGui, OpenGL or a sensor object is recorded, in program
  order, in a call log (argument computations without effect, `ImGui::GetIO()`, `asctime`,
  `c_str()`, are not); what such a call returns (a button press, the window-close flag, the
  outcome of a start-up step, the state a sensor is in after `update()` or `takePicture()`)
  is an input of the model.  The accessors `name()`, `getWarning()`, `getDetected()`,
  `getData()` and `getImage()` read the sensor and leave it as it is.
* The registry `std::vector<Sensor*> sensors_` owns its objects, so it is a list of sensor
  values.  The dynamic class of an entry (what `dynamic_cast` inspects) and its constructor
  arguments are fixed; the values its accessors return are its mutable state.
* `warnStep_` is declared in `piHome.h`, which is not part of the sources at hand; its
  arithmetic type is a parameter of the model (`CounterType`), so `++warnStep_` is the
  increment of that type, overflow included.
* The close flag of the window belongs to GLFW; the four functions only read it.  Where a
  statement is about one `isRunning()` call the value read is an input; where it is about
  the loop over time the flag is state of the windowing layer (`Session`).
-/

set_option linter.dupNamespace false

namespace PiHome

/-! ## Data model -/

/-- Concrete sensor classes (`sensors/mq135.h`, `sensors/dht11.h`, and the classes
`PIRSensor`, `CameraSensor` named in `piHome.cpp`).  Each derives from `Sensor` directly, as
the two headers show, so on any object at most one of the three `dynamic_cast`s of `draw()`
succeeds: the one to the object's own class. -/
inductive SensorKind
  | MQ135Sensor
  | PIRSensor
  | CameraSensor
  | DHT11Sensor
  deriving DecidableEq

/-- Value returned by `PIRSensor::getData()`: `timeinfo` is a `tm*` (`none` is `nullptr`). -/
structure PIRData where
  timeinfo : Option Nat
  count : Int
  detected : Bool
  deriving DecidableEq

/-- Value returned by `CameraSensor::getImage()`. -/
structure RaspiImage where
  textureID : Nat
  width : Int
  height : Int
  data : List Nat
  deriving DecidableEq

/-- What the accessors of a sensor object currently return. -/
structure SensorState where
  name : String
  getWarning : Bool
  getDetected : Bool
  getData : PIRData
  getImage : RaspiImage
  deriving DecidableEq

/-- One registry entry: dynamic class, integer constructor arguments (pins, retry limit)
and accessor state. -/
structure Sensor where
  kind : SensorKind
  args : List Int
  st : SensorState
  deriving DecidableEq

/-- Members of `PIHome` used by the four functions. -/
structure PIHome where
  exiting_ : Bool
  warnStep_ : Int
  window_ : Nat
  sensors_ : List Sensor
  deriving DecidableEq

/-! ## Call log -/

/-- Member functions of a sensor that `piHome.cpp` calls. -/
inductive Method
  | update
  | getWarning
  | name
  | takePicture
  | getImage
  | getData
  | getDetected
  deriving DecidableEq

/-- Style slots recoloured for a warning panel. -/
inductive ImGuiCol
  | WindowBg
  | TitleBg
  | TitleBgActive
  | TitleBgCollapsed
  deriving DecidableEq

/-- One colour component as written in the source: either the pulse expression
`(float)(sin((n * 25 * M_PI / 180.0) + 1.0) / 4.0 + 0.5)` at counter value `n`, or a decimal
literal `num / den`. -/
inductive Chan
  | pulse (n : Int)
  | lit (num den : Nat)
  deriving DecidableEq

/-- Colour argument `ImVec4(x, y, z, w)` = (red, green, blue, alpha). -/
structure ImVec4 where
  x : Chan
  y : Chan
  z : Chan
  w : Chan
  deriving DecidableEq

/-- Argument of a formatted `ImGui::Text` call. -/
inductive Arg
  | frameTime
  | framerate
  | asctime (t : Nat)
  | int (n : Int)
  deriving DecidableEq

/-- Calls made by `update()` and `draw()`. -/
inductive Call
  | glfwPollEvents
  | NewFrame
  | Begin (name : String)
  | End
  | Text (fmt : String) (args : List Arg)
  | Button (label : String)
  | PushStyleColor (idx : ImGuiCol) (col : ImVec4)
  | PopStyleColor
  | sensor (i : Nat) (m : Method)
  | glBindTexture (id : Nat)
  | glTexImage2D (width height : Int) (data : List Nat)
  | Image (id : Nat) (w h : Nat)
  | glfwGetFramebufferSize
  | glViewport (w h : Int)
  | glClearColor
  | glClear
  | Render
  | glfwSwapBuffers
  | usleep (us : Nat)
  deriving DecidableEq

/-- What the outside world supplies during one `draw()`: the two kinds of button, the state a
camera is in after `takePicture()`, and the framebuffer size. -/
structure FrameInput where
  exitPressed : Bool
  takePressed : Nat → Bool
  takePicture : Nat → Sensor → SensorState
  displayW : Int
  displayH : Int

/-! ## `PIHome::update` -/

/-- Result of a loop over the registry. -/
structure LoopOut where
  calls : List Call
  sensors : List Sensor
  warnStep : Int

/-- The loop `for (i = 0; i < sensors_.size(); i++) sensors_[i]->update();`, from index `i`
on; `hw i s` is the state sensor `i` is in after its hardware read. -/
def updateLoop (hw : Nat → Sensor → SensorState) : Nat → List Sensor → List Call × List Sensor
  | _, [] => ([], [])
  | i, s :: rest =>
    (Call.sensor i Method.update :: (updateLoop hw (i + 1) rest).1,
     { s with st := hw i s } :: (updateLoop hw (i + 1) rest).2)

/-- Model of `PIHome::update()`. -/
def PIHome.update (hw : Nat → Sensor → SensorState) (app : PIHome) : List Call × PIHome :=
  ((updateLoop hw 0 app.sensors_).1 ++ [Call.usleep 100000],
   { app with sensors_ := (updateLoop hw 0 app.sensors_).2 })

/-! ## `PIHome::draw` -/

/-- The arithmetic type of the member `warnStep_`.  Its declaration is in `piHome.h`, which
is not among the sources at hand, so the type is a parameter of the model: `top` is its
largest value and `wrap` is the value `++` leaves in the counter when applied at `top` (0 for
an unsigned type, the smallest value for a two's-complement signed one).  Every arithmetic
type can hold 1, hence `top_pos`. -/
structure CounterType where
  top : Int
  wrap : Int
  top_pos : 0 < top

/-- The statement `++warnStep_` on a counter holding `w`. -/
def CounterType.incr (T : CounterType) (w : Int) : Int :=
  if w = T.top then T.wrap else w + 1

/-- The counter after `k` executions of `++warnStep_`, starting from `w`. -/
def CounterType.advance (T : CounterType) : Nat → Int → Int
  | 0, w => w
  | k + 1, w => CounterType.advance T k (T.incr w)


/-- The colour `ImVec4(red, 0.0f, 0.0f, 0.8f)`. -/
def warnColor (red : Chan) : ImVec4 :=
  ⟨red, Chan.lit 0 10, Chan.lit 0 10, Chan.lit 8 10⟩

/-- The four `PushStyleColor` calls of lines 120-123. -/
def pushWarn (red : Chan) : List Call :=
  [Call.PushStyleColor ImGuiCol.WindowBg (warnColor red),
   Call.PushStyleColor ImGuiCol.TitleBg (warnColor red),
   Call.PushStyleColor ImGuiCol.TitleBgActive (warnColor red),
   Call.PushStyleColor ImGuiCol.TitleBgCollapsed (warnColor red)]

/-- The four `PopStyleColor` calls of lines 168-171. -/
def popWarn : List Call :=
  [Call.PopStyleColor, Call.PopStyleColor, Call.PopStyleColor, Call.PopStyleColor]

/-- State of sensor `i` after the camera block: `takePicture()` ran iff the entry is a
`CameraSensor` and its button was pressed. -/
def cameraState (inp : FrameInput) (i : Nat) (s : Sensor) : Sensor :=
  if s.kind = SensorKind.CameraSensor ∧ inp.takePressed i = true then
    { s with st := inp.takePicture i s }
  else s

/-- Lines 129-142: the block guarded by `dynamic_cast<CameraSensor*>`. -/
def cameraPanel (inp : FrameInput) (i : Nat) (s : Sensor) : List Call :=
  if s.kind = SensorKind.CameraSensor then
    [Call.Text "Image" [], Call.Button "Take picture"]
      ++ (if inp.takePressed i = true then [Call.sensor i Method.takePicture] else [])
      ++ [Call.sensor i Method.getImage,
          Call.glBindTexture (cameraState inp i s).st.getImage.textureID,
          Call.glTexImage2D (cameraState inp i s).st.getImage.width
            (cameraState inp i s).st.getImage.height (cameraState inp i s).st.getImage.data,
          Call.Image (cameraState inp i s).st.getImage.textureID 320 240]
  else []

/-- Lines 144-154: the block guarded by `dynamic_cast<PIRSensor*>`. -/
def pirPanel (i : Nat) (s : Sensor) : List Call :=
  if s.kind = SensorKind.PIRSensor then
    [Call.sensor i Method.getData]
      ++ (match s.st.getData.timeinfo with
          | some t => [Call.Text "Last detected local time and date: %s" [Arg.asctime t]]
          | none => [])
      ++ [Call.Text "Detected counter %d" [Arg.int s.st.getData.count]]
      ++ (if s.st.getData.detected = true then [Call.Text "MOTION DETECTED" []] else [])
  else []

/-- Lines 156-163: the block guarded by `dynamic_cast<MQ135Sensor*>`. -/
def mq135Panel (i : Nat) (s : Sensor) : List Call :=
  if s.kind = SensorKind.MQ135Sensor then
    [Call.sensor i Method.getDetected]
      ++ (if s.st.getDetected = true then [Call.Text "GAS detected" []]
          else [Call.Text "OK" []])
  else []

/-- What is drawn between `Begin` and `End` of sensor `i`. -/
def panelBody (inp : FrameInput) (i : Nat) (s : Sensor) : List Call :=
  cameraPanel inp i s ++ pirPanel i (cameraState inp i s) ++ mq135Panel i (cameraState inp i s)

/-- One iteration of the loop of lines 116-173 on sensor `i`, with `warnStep_ = w` on entry;
`++warnStep_` is the increment of the counter's type `T`. -/
def drawSensor (T : CounterType) (inp : FrameInput) (i : Nat) (s : Sensor) (w : Int) :
    LoopOut :=
  { calls :=
      [Call.sensor i Method.getWarning]
        ++ (if s.st.getWarning = true then pushWarn (Chan.pulse (T.incr w)) else [])
        ++ [Call.sensor i Method.name, Call.Begin s.st.name]
        ++ panelBody inp i s
        ++ [Call.End]
        ++ (if s.st.getWarning = true then popWarn else [])
    sensors := [cameraState inp i s]
    warnStep := if s.st.getWarning = true then T.incr w else w }

/-- The loop of lines 116-173 from index `i` on. -/
def drawLoop (T : CounterType) (inp : FrameInput) : Nat → List Sensor → Int → LoopOut
  | _, [], w => { calls := [], sensors := [], warnStep := w }
  | i, s :: rest, w =>
    { calls := (drawSensor T inp i s w).calls
        ++ (drawLoop T inp (i + 1) rest (drawSensor T inp i s w).warnStep).calls
      sensors := (drawSensor T inp i s w).sensors
        ++ (drawLoop T inp (i + 1) rest (drawSensor T inp i s w).warnStep).sensors
      warnStep := (drawLoop T inp (i + 1) rest (drawSensor T inp i s w).warnStep).warnStep }

/-- Lines 107-114: event polling and the status panel with its Exit button. -/
def drawHeader : List Call :=
  [Call.glfwPollEvents, Call.NewFrame, Call.Begin "piHome",
   Call.Text "Application average %.3f ms/frame (%.1f FPS)" [Arg.frameTime, Arg.framerate],
   Call.Button "Exit", Call.End]

/-- Lines 176-182: rendering. -/
def drawFooter (inp : FrameInput) : List Call :=
  [Call.glfwGetFramebufferSize, Call.glViewport inp.displayW inp.displayH, Call.glClearColor,
   Call.glClear, Call.Render, Call.glfwSwapBuffers]

/-- Model of `PIHome::draw()`. -/
def PIHome.draw (T : CounterType) (inp : FrameInput) (app : PIHome) : List Call × PIHome :=
  (drawHeader ++ (drawLoop T inp 0 app.sensors_ app.warnStep_).calls ++ drawFooter inp,
   { exiting_ := if inp.exitPressed = true then true else app.exiting_
     warnStep_ := (drawLoop T inp 0 app.sensors_ app.warnStep_).warnStep
     window_ := app.window_
     sensors_ := (drawLoop T inp 0 app.sensors_ app.warnStep_).sensors })

/-! ## `PIHome::isRunning` -/

/-- Model of `PIHome::isRunning()`; `shouldClose` is what `glfwWindowShouldClose(window_)`
returns at this call.  The second component is the object after the call. -/
def PIHome.isRunning (app : PIHome) (shouldClose : Int) : Bool × PIHome :=
  (!(shouldClose != 0) && !app.exiting_, app)

/-! ## `PIHome::PIHome` -/

/-- Value of `*glfwGetVideoMode(monitor)`. -/
structure GLFWvidmode where
  width : Int
  height : Int
  redBits : Int
  greenBits : Int
  blueBits : Int
  refreshRate : Int
  deriving DecidableEq

/-- Window hints set by the constructor. -/
inductive Hint
  | CLIENT_API
  | CONTEXT_CREATION_API
  | CONTEXT_VERSION_MAJOR
  | CONTEXT_VERSION_MINOR
  | REFRESH_RATE
  | RED_BITS
  | GREEN_BITS
  | BLUE_BITS
  | ALPHA_BITS
  | DECORATED
  deriving DecidableEq

/-- Second argument of `glfwWindowHint`. -/
inductive HintVal
  | OPENGL_ES_API
  | EGL_CONTEXT_API
  | int (n : Int)
  | bool (b : Bool)
  deriving DecidableEq

/-- Calls made by the constructor. -/
inductive BootCall
  | printf (fmt : String) (arg : Option String)
  | wiringPiSetupGpio
  | glfwSetErrorCallback
  | glfwInit
  | glfwGetPrimaryMonitor
  | glfwGetVideoMode (monitor : Nat)
  | glfwWindowHint (hint : Hint) (value : HintVal)
  | glfwCreateWindow (width height : Int) (title : String) (monitor : Nat)
  | glfwMakeContextCurrent (window : Nat)
  | ImplGlfwInit (window : Nat)
  | newSensor (kind : SensorKind) (name : String) (args : List Int)
  | sensorName (i : Nat)
  deriving DecidableEq

/-- What the outside world returns to the constructor: the return value of
`wiringPiSetupGpio()` and of `glfwInit()`, the three pointers (`none` is `nullptr`), whether
the macro `GLFW_CONTEXT_CREATION_API` is defined, and the accessor state a freshly
constructed sensor of a given class, name and arguments is in. -/
structure BootEnv where
  gpioSetup : Int
  glfwInit : Int
  primaryMonitor : Option Nat
  videoMode : Option GLFWvidmode
  createWindow : Option Nat
  hasContextCreationApi : Bool
  sensorInit : SensorKind → String → List Int → SensorState

/-- The object `new K(name, args...)`. -/
def newSensor (env : BootEnv) (kind : SensorKind) (name : String) (args : List Int) : Sensor :=
  { kind := kind, args := args, st := env.sensorInit kind name args }

/-- Lines 38-49: the window hints. -/
def windowHints (env : BootEnv) (mode : GLFWvidmode) : List BootCall :=
  [BootCall.glfwWindowHint Hint.CLIENT_API HintVal.OPENGL_ES_API]
    ++ (if env.hasContextCreationApi = true then
          [BootCall.glfwWindowHint Hint.CONTEXT_CREATION_API HintVal.EGL_CONTEXT_API]
        else [])
    ++ [BootCall.glfwWindowHint Hint.CONTEXT_VERSION_MAJOR (HintVal.int 2),
        BootCall.glfwWindowHint Hint.CONTEXT_VERSION_MINOR (HintVal.int 0),
        BootCall.glfwWindowHint Hint.REFRESH_RATE (HintVal.int mode.refreshRate),
        BootCall.glfwWindowHint Hint.RED_BITS (HintVal.int mode.redBits),
        BootCall.glfwWindowHint Hint.GREEN_BITS (HintVal.int mode.greenBits),
        BootCall.glfwWindowHint Hint.BLUE_BITS (HintVal.int mode.blueBits),
        BootCall.glfwWindowHint Hint.ALPHA_BITS (HintVal.int 0),
        BootCall.glfwWindowHint Hint.DECORATED (HintVal.bool true)]

/-- Lines 62-64: the three `push_back(new ...)`. -/
def bootSensors (env : BootEnv) : List Sensor :=
  [newSensor env SensorKind.MQ135Sensor "Raspberry Pi MQ-135 Gas sensor" [19],
   newSensor env SensorKind.PIRSensor "Raspberry Pi PIR Motion decetor sensor" [20],
   newSensor env SensorKind.CameraSensor "Raspberry Pi Camera sensor" []]

/-- Lines 66-69: printing the names of the registered sensors, from index `i` on. -/
def printNames : Nat → List Sensor → List BootCall
  | _, [] => []
  | i, s :: rest =>
    BootCall.sensorName i :: BootCall.printf "%s\n" (some s.st.name) :: printNames (i + 1) rest

/-- Lines 55-69: everything after the last check. -/
def bootTail (env : BootEnv) (window : Nat) : List BootCall :=
  [BootCall.glfwMakeContextCurrent window, BootCall.ImplGlfwInit window,
   BootCall.newSensor SensorKind.MQ135Sensor "Raspberry Pi MQ-135 Gas sensor" [19],
   BootCall.newSensor SensorKind.PIRSensor "Raspberry Pi PIR Motion decetor sensor" [20],
   BootCall.newSensor SensorKind.CameraSensor "Raspberry Pi Camera sensor" [],
   BootCall.printf "SENSORS: \n" none]
    ++ printNames 0 (bootSensors env)

/-- Model of the constructor `PIHome::PIHome()`: the calls it makes, and either the message
of the `std::runtime_error` it throws or the constructed object. -/
def PIHome.PIHome (env : BootEnv) : List BootCall × Except String PIHome :=
  if env.gpioSetup = -1 then
    ([BootCall.printf "piHome initializing ...\n" none, BootCall.wiringPiSetupGpio],
     Except.error "[E] wiringPiSetupGpio failed")
  else if env.glfwInit = 0 then
    ([BootCall.printf "piHome initializing ...\n" none, BootCall.wiringPiSetupGpio,
      BootCall.glfwSetErrorCallback, BootCall.glfwInit],
     Except.error "[E] glfwInit failed")
  else
    match env.primaryMonitor with
    | none =>
      ([BootCall.printf "piHome initializing ...\n" none, BootCall.wiringPiSetupGpio,
        BootCall.glfwSetErrorCallback, BootCall.glfwInit, BootCall.glfwGetPrimaryMonitor],
       Except.error "Could not get primary monitor. This is probably caused by using RDP.")
    | some monitor =>
      match env.videoMode with
      | none =>
        ([BootCall.printf "piHome initializing ...\n" none, BootCall.wiringPiSetupGpio,
          BootCall.glfwSetErrorCallback, BootCall.glfwInit, BootCall.glfwGetPrimaryMonitor,
          BootCall.glfwGetVideoMode monitor],
         Except.error "Could not get video mode. This is probably caused by using RDP.")
      | some mode =>
        match env.createWindow with
        | none =>
          ([BootCall.printf "piHome initializing ...\n" none, BootCall.wiringPiSetupGpio,
            BootCall.glfwSetErrorCallback, BootCall.glfwInit, BootCall.glfwGetPrimaryMonitor,
            BootCall.glfwGetVideoMode monitor]
            ++ windowHints env mode
            ++ [BootCall.glfwCreateWindow mode.width mode.height "piHome" monitor],
           Except.error "Could not create GLFW window.")
        | some window =>
          ([BootCall.printf "piHome initializing ...\n" none, BootCall.wiringPiSetupGpio,
            BootCall.glfwSetErrorCallback, BootCall.glfwInit, BootCall.glfwGetPrimaryMonitor,
            BootCall.glfwGetVideoMode monitor]
            ++ windowHints env mode
            ++ [BootCall.glfwCreateWindow mode.width mode.height "piHome" monitor]
            ++ bootTail env window,
           Except.ok
             { exiting_ := false, warnStep_ := 0, window_ := window,
               sensors_ := bootSensors env })

/-! ## The loop body as a step function -/

/-- One call made by the loop owner between two `isRunning()` checks. -/
inductive Step
  | update (hw : Nat → Sensor → SensorState)
  | draw (inp : FrameInput)

/-- Object after one step. -/
def step (T : CounterType) (app : PIHome) : Step → PIHome
  | Step.update hw => (app.update hw).2
  | Step.draw inp => (app.draw T inp).2

/-- Object after a sequence of steps. -/
def run (T : CounterType) (steps : List Step) (app : PIHome) : PIHome :=
  steps.foldl (step T) app

/-- Whether the Exit button is pressed during a step (never during `update()`). -/
def Step.exitPressed : Step → Bool
  | Step.update _ => false
  | Step.draw inp => inp.exitPressed

/-! ## The loop and the close flag of its window -/

/-- The running application as the loop owner sees it: the `PIHome` object and the close
flag of its window, which is what `glfwWindowShouldClose(window_)` returns.  The flag is
stored in the GLFW window: the windowing layer sets it when the user asks to close the
window, and only `glfwSetWindowShouldClose` clears it.  `piHome.cpp` never calls that
function and assigns `window_` once, in the constructor, so nothing in the program clears
the flag. -/
structure Session where
  app : PIHome
  closeFlag : Int

/-- What happens between two `isRunning()` checks: a call made by the loop owner, or the
windowing layer recording a close request (in the program this happens while
`glfwPollEvents()` runs). -/
inductive Event
  | call (st : Step)
  | closeRequest

/-- Session after one event; a close request stores `GLFW_TRUE` in the flag. -/
def Session.apply (T : CounterType) (σ : Session) : Event → Session
  | Event.call st => { σ with app := step T σ.app st }
  | Event.closeRequest => { σ with closeFlag := 1 }

/-- Session after a sequence of events. -/
def Session.run (T : CounterType) (events : List Event) (σ : Session) : Session :=
  events.foldl (Session.apply T) σ

/-- The `isRunning()` check of the loop owner: `glfwWindowShouldClose(window_)` returns the
stored flag. -/
def Session.isRunning (σ : Session) : Bool :=
  (σ.app.isRunning σ.closeFlag).1

/-! ## Reading a call log -/

/-- Indices `i` of the calls `sensors_[i]->m()` in a log, in program order. -/
def sensorIdx (m : Method) : List Call → List Nat
  | [] => []
  | Call.sensor i m' :: rest => if m' = m then i :: sensorIdx m rest else sensorIdx m rest
  | _ :: rest => sensorIdx m rest

/-- Titles of the panels opened in a log, in program order. -/
def beginTitles : List Call → List String
  | [] => []
  | Call.Begin name :: rest => name :: beginTitles rest
  | _ :: rest => beginTitles rest

/-- The registry entries as the loops visit them: index and entry, from index `i` on. -/
def indexed : Nat → List Sensor → List (Nat × Sensor)
  | _, [] => []
  | i, s :: rest => (i, s) :: indexed (i + 1) rest

/-- Identity of a registry entry: what no member function can change. -/
def Sensor.ident (s : Sensor) : SensorKind × List Int :=
  (s.kind, s.args)

/-- Calls that occur between the `Begin` and the `End` of a sensor panel: text, button,
image and texture calls, and the sensor member functions read or triggered there. -/
def Call.inPanel : Call → Bool
  | Call.Text _ _ => true
  | Call.Button _ => true
  | Call.glBindTexture _ => true
  | Call.glTexImage2D _ _ _ => true
  | Call.Image _ _ _ => true
  | Call.sensor _ Method.takePicture => true
  | Call.sensor _ Method.getImage => true
  | Call.sensor _ Method.getData => true
  | Call.sensor _ Method.getDetected => true
  | _ => false

/-! ## Concrete objects used to instantiate the theorems -/

/-- A sensor state with the given name and warning flag and nothing detected. -/
def quietState (name : String) (warning : Bool) : SensorState :=
  { name := name, getWarning := warning, getDetected := warning,
    getData := { timeinfo := none, count := 0, detected := warning },
    getImage := { textureID := 0, width := 0, height := 0, data := [] } }

/-- Start-up in which all five steps succeed. -/
def goodEnv : BootEnv :=
  { gpioSetup := 0, glfwInit := 1, primaryMonitor := some 1,
    videoMode := some { width := 800, height := 480, redBits := 8, greenBits := 8,
                        blueBits := 8, refreshRate := 60 },
    createWindow := some 7, hasContextCreationApi := true,
    sensorInit := fun _ name _ => quietState name false }

/-- The object `goodEnv` constructs. -/
def goodApp : PIHome :=
  { exiting_ := false, warnStep_ := 0, window_ := 7, sensors_ := bootSensors goodEnv }

/-- A 32-bit two's-complement counter. -/
def int32 : CounterType :=
  { top := 2147483647, wrap := -2147483648, top_pos := by decide }

/-- A frame in which nothing is pressed. -/
def idleFrame : FrameInput :=
  { exitPressed := false, takePressed := fun _ => false,
    takePicture := fun _ s => s.st, displayW := 800, displayH := 480 }

/-- A frame in which Exit is pressed. -/
def exitFrame : FrameInput :=
  { idleFrame with exitPressed := true }

/-- A hardware read that changes nothing. -/
def idleRead : Nat → Sensor → SensorState :=
  fun _ s => s.st

/-! ## Reading the constructor's outcome -/

/-- Whether start-up step `k` fails, as the constructor tests it: 0 GPIO binding setup
(`wiringPiSetupGpio() == -1`), 1 windowing-library init (`!glfwInit()`), 2 primary-monitor
lookup, 3 video-mode lookup, 4 window creation (each `== nullptr`). -/
def stepFails (env : BootEnv) : Nat → Bool
  | 0 => env.gpioSetup == -1
  | 1 => env.glfwInit == 0
  | 2 => env.primaryMonitor.isNone
  | 3 => env.videoMode.isNone
  | 4 => env.createWindow.isNone
  | _ => false

/-- Message of the `std::runtime_error` thrown when step `k` fails. -/
def stepError : Nat → String
  | 0 => "[E] wiringPiSetupGpio failed"
  | 1 => "[E] glfwInit failed"
  | 2 => "Could not get primary monitor. This is probably caused by using RDP."
  | 3 => "Could not get video mode. This is probably caused by using RDP."
  | _ => "Could not create GLFW window."

/-- Which start-up step a call attempts, if any. -/
def BootCall.stepIndex : BootCall → Option Nat
  | BootCall.wiringPiSetupGpio => some 0
  | BootCall.glfwInit => some 1
  | BootCall.glfwGetPrimaryMonitor => some 2
  | BootCall.glfwGetVideoMode _ => some 3
  | BootCall.glfwCreateWindow _ _ _ _ => some 4
  | _ => none

/-- Start-up steps attempted in a log, in program order. -/
def attempted (log : List BootCall) : List Nat :=
  log.filterMap BootCall.stepIndex

/-- Class and pin arguments of a sensor constructor call, if the call is one. -/
def BootCall.constructs : BootCall → Option (SensorKind × List Int)
  | BootCall.newSensor kind _ args => some (kind, args)
  | _ => none

/-- Sensors constructed in a log, in program order. -/
def constructed (log : List BootCall) : List (SensorKind × List Int) :=
  log.filterMap BootCall.constructs

/-- Start-up on a machine without a primary monitor, where window creation would fail too. -/
def rdpEnv : BootEnv :=
  { goodEnv with primaryMonitor := none, createWindow := none }

/-- A registry in which the gas sensor and the motion sensor both warn. -/
def alarmApp : PIHome :=
  { exiting_ := false, warnStep_ := 0, window_ := 7,
    sensors_ :=
      [{ kind := SensorKind.MQ135Sensor, args := [19], st := quietState "gas" true },
       { kind := SensorKind.PIRSensor, args := [20], st := quietState "motion" true },
       { kind := SensorKind.CameraSensor, args := [], st := quietState "camera" false }] }

/-- A hardware read after which the gas sensor (entry 0) and the motion sensor (entry 1)
warn. -/
def alarmRead : Nat → Sensor → SensorState :=
  fun i s => { s.st with getWarning := decide (i < 2) }

/-- A frame in which the Take picture button of every camera panel is pressed and the
capture leaves the camera warning. -/
def snapFrame : FrameInput :=
  { idleFrame with
    takePressed := fun _ => true
    takePicture := fun _ s => { s.st with getWarning := true } }

/-- The sensor kind whose panel content a drawing call is: image, capture button and
texture calls are camera content; the last-detection, counter and banner lines are motion
content; the two gas lines are gas content; anything else belongs to no kind. -/
def Call.contentKind : Call → Option SensorKind
  | Call.Text fmt _ =>
    if fmt = "Image" then some SensorKind.CameraSensor
    else if fmt = "GAS detected" ∨ fmt = "OK" then some SensorKind.MQ135Sensor
    else if fmt = "Last detected local time and date: %s" ∨ fmt = "Detected counter %d"
        ∨ fmt = "MOTION DETECTED" then some SensorKind.PIRSensor
    else none
  | Call.Button label => if label = "Take picture" then some SensorKind.CameraSensor else none
  | Call.glBindTexture _ => some SensorKind.CameraSensor
  | Call.glTexImage2D _ _ _ => some SensorKind.CameraSensor
  | Call.Image _ _ _ => some SensorKind.CameraSensor
  | _ => none

/-- Effect of a call on the depth of the style-colour stack. -/
def styleDelta : Call → Int
  | Call.PushStyleColor _ _ => 1
  | Call.PopStyleColor => -1
  | _ => 0

/-- Effect of a call on the number of open panels. -/
def windowDelta : Call → Int
  | Call.Begin _ => 1
  | Call.End => -1
  | _ => 0

/-- Depth reached after a log, relative to the depth before it. -/
def depth (δ : Call → Int) (log : List Call) : Int :=
  (log.map δ).sum

/-- Whether a call pushes a style colour. -/
def Call.isPush : Call → Bool
  | Call.PushStyleColor _ _ => true
  | _ => false

/-- Whether a call pops a style colour. -/
def Call.isPop : Call → Bool
  | Call.PopStyleColor => true
  | _ => false

/-- The four pushes of a warning panel with red channel `red`. -/
def fourPushes (red : Chan) : List Call :=
  [ImGuiCol.WindowBg, ImGuiCol.TitleBg, ImGuiCol.TitleBgActive, ImGuiCol.TitleBgCollapsed].map
    (fun idx => Call.PushStyleColor idx ⟨red, Chan.lit 0 10, Chan.lit 0 10, Chan.lit 8 10⟩)

/-- The red channel of line 119 in exact real arithmetic, at counter value `n` (the value
of `warnStep_` after its increment): `sin(n * 25 * pi / 180 + 1) / 4 + 1 / 2`. -/
noncomputable def red (n : ℤ) : ℝ :=
  Real.sin ((n : ℝ) * 25 * Real.pi / 180 + 1) / 4 + 1 / 2

/-- Real value of a colour component. -/
noncomputable def Chan.val : Chan → ℝ
  | Chan.pulse n => red (n : ℤ)
  | Chan.lit num den => (num : ℝ) / (den : ℝ)

/-! ## Shared lemmas -/

theorem step_exiting (T : CounterType) (app : PIHome) (st : Step) :
    (step T app st).exiting_ = (app.exiting_ || st.exitPressed) := by
  cases st with
  | update hw => simp [step, PIHome.update, Step.exitPressed]
  | draw inp =>
    cases h : inp.exitPressed <;> simp [step, PIHome.draw, Step.exitPressed, h]

theorem run_exiting (T : CounterType) (steps : List Step) (app : PIHome) :
    (run T steps app).exiting_ = (app.exiting_ || steps.any Step.exitPressed) := by
  induction steps generalizing app with
  | nil => simp [run]
  | cons st rest ih =>
    have h := ih (step T app st)
    simp only [run, List.foldl_cons] at h ⊢
    rw [h, step_exiting, List.any_cons, Bool.or_assoc]

theorem ctor_ok_exiting (env : BootEnv) (app : PIHome)
    (h : (PIHome.PIHome env).2 = Except.ok app) :
    app.exiting_ = false ∧ app.warnStep_ = 0 ∧ app.sensors_ = bootSensors env := by
  unfold PIHome.PIHome at h
  split_ifs at h
  split at h
  · cases h
  · split at h
    · cases h
    · split at h
      · cases h
      · cases h
        exact ⟨rfl, rfl, rfl⟩

theorem sensorIdx_append (m : Method) (a b : List Call) :
    sensorIdx m (a ++ b) = sensorIdx m a ++ sensorIdx m b := by
  induction a with
  | nil => rfl
  | cons c rest ih =>
    cases c <;> simp [sensorIdx, ih]
    split <;> simp

theorem beginTitles_append (a b : List Call) :
    beginTitles (a ++ b) = beginTitles a ++ beginTitles b := by
  induction a with
  | nil => rfl
  | cons c rest ih => cases c <;> simp [beginTitles, ih]

theorem indexed_snd (i : Nat) (l : List Sensor) : (indexed i l).map Prod.snd = l := by
  induction l generalizing i with
  | nil => rfl
  | cons s rest ih => simp [indexed, ih]

theorem updateLoop_calls (hw : Nat → Sensor → SensorState) (i : Nat) (l : List Sensor) :
    (updateLoop hw i l).1 = (indexed i l).map (fun p => Call.sensor p.1 Method.update) := by
  induction l generalizing i with
  | nil => rfl
  | cons s rest ih => simp [updateLoop, indexed, ih]

theorem updateLoop_sensors (hw : Nat → Sensor → SensorState) (i : Nat) (l : List Sensor) :
    (updateLoop hw i l).2 = (indexed i l).map (fun p => { p.2 with st := hw p.1 p.2 }) := by
  induction l generalizing i with
  | nil => rfl
  | cons s rest ih => simp [updateLoop, indexed, ih]

theorem sensorIdx_update_calls (i : Nat) (l : List Sensor) :
    sensorIdx Method.update ((indexed i l).map (fun p => Call.sensor p.1 Method.update))
      = List.range' i l.length := by
  induction l generalizing i with
  | nil => rfl
  | cons s rest ih => simp [indexed, sensorIdx, ih, List.range'_succ]

theorem cameraState_ident (inp : FrameInput) (i : Nat) (s : Sensor) :
    (cameraState inp i s).kind = s.kind ∧ (cameraState inp i s).args = s.args := by
  unfold cameraState
  split <;> simp

theorem drawLoop_sensors (T : CounterType)
    (inp : FrameInput) (i : Nat) (l : List Sensor) (w : Int) :
    (drawLoop T inp i l w).sensors = (indexed i l).map (fun p => cameraState inp p.1 p.2) := by
  induction l generalizing i w with
  | nil => rfl
  | cons s rest ih => simp [drawLoop, drawSensor, indexed, ih]

theorem drawLoop_warnStep (T : CounterType)
    (inp : FrameInput) (i : Nat) (l : List Sensor) (w : Int) :
    (drawLoop T inp i l w).warnStep = T.advance (l.countP (fun s => s.st.getWarning)) w := by
  induction l generalizing i w with
  | nil => rfl
  | cons s rest ih =>
    cases h : s.st.getWarning
    · simp [drawLoop, drawSensor, ih, h, List.countP_cons]
    · simp [drawLoop, drawSensor, ih, h, List.countP_cons, CounterType.advance]

theorem drawLoop_append (T : CounterType)
    (inp : FrameInput) (i : Nat) (l1 l2 : List Sensor) (w : Int) :
    (drawLoop T inp i (l1 ++ l2) w).calls
      = (drawLoop T inp i l1 w).calls
          ++ (drawLoop T inp (i + l1.length) l2 (drawLoop T inp i l1 w).warnStep).calls := by
  induction l1 generalizing i w with
  | nil => simp [drawLoop]
  | cons s rest ih =>
    have h := ih (i + 1) (drawSensor T inp i s w).warnStep
    have e : i + (rest.length + 1) = i + 1 + rest.length := by omega
    rw [List.cons_append]
    simp only [drawLoop, List.length_cons, e, h, List.append_assoc]

theorem cameraPanel_inPanel (inp : FrameInput) (i : Nat) (s : Sensor) :
    (cameraPanel inp i s).all Call.inPanel = true := by
  unfold cameraPanel
  split_ifs <;> simp [Call.inPanel]

theorem pirPanel_inPanel (i : Nat) (s : Sensor) :
    (pirPanel i s).all Call.inPanel = true := by
  unfold pirPanel
  split_ifs <;> (try split) <;> simp [Call.inPanel]

theorem mq135Panel_inPanel (i : Nat) (s : Sensor) :
    (mq135Panel i s).all Call.inPanel = true := by
  unfold mq135Panel
  split_ifs <;> simp [Call.inPanel]

theorem panelBody_inPanel (inp : FrameInput) (i : Nat) (s : Sensor) :
    (panelBody inp i s).all Call.inPanel = true := by
  simp only [panelBody, List.all_append, cameraPanel_inPanel, pirPanel_inPanel,
    mq135Panel_inPanel, Bool.and_self]

theorem sensorIdx_inPanel (m : Method)
    (hm : m = Method.update ∨ m = Method.getWarning ∨ m = Method.name) (l : List Call)
    (h : l.all Call.inPanel = true) : sensorIdx m l = [] := by
  induction l with
  | nil => rfl
  | cons c rest ih =>
    simp only [List.all_cons, Bool.and_eq_true] at h
    have hr := ih h.2
    have hc := h.1
    cases c with
    | sensor j m' =>
      cases m' <;> rcases hm with rfl | rfl | rfl <;> simp_all [sensorIdx, Call.inPanel]
    | _ => simp_all [sensorIdx]

theorem beginTitles_inPanel (l : List Call) (h : l.all Call.inPanel = true) :
    beginTitles l = [] := by
  induction l with
  | nil => rfl
  | cons c rest ih =>
    simp only [List.all_cons, Bool.and_eq_true] at h
    have hr := ih h.2
    have hc := h.1
    cases c <;> simp_all [beginTitles, Call.inPanel]

theorem drawSensor_sensorIdx (T : CounterType) (inp : FrameInput) (i : Nat) (s : Sensor) (w : Int) :
    sensorIdx Method.getWarning (drawSensor T inp i s w).calls = [i]
      ∧ sensorIdx Method.name (drawSensor T inp i s w).calls = [i]
      ∧ sensorIdx Method.update (drawSensor T inp i s w).calls = [] := by
  have hb := panelBody_inPanel inp i s
  have h1 := sensorIdx_inPanel Method.getWarning (Or.inr (Or.inl rfl)) _ hb
  have h2 := sensorIdx_inPanel Method.name (Or.inr (Or.inr rfl)) _ hb
  have h3 := sensorIdx_inPanel Method.update (Or.inl rfl) _ hb
  cases hw : s.st.getWarning <;>
    simp [drawSensor, sensorIdx_append, sensorIdx, pushWarn, popWarn, h1, h2, h3, hw]

theorem drawSensor_beginTitles (T : CounterType)
    (inp : FrameInput) (i : Nat) (s : Sensor) (w : Int) :
    beginTitles (drawSensor T inp i s w).calls = [s.st.name] := by
  have hb := beginTitles_inPanel _ (panelBody_inPanel inp i s)
  cases hw : s.st.getWarning <;>
    simp [drawSensor, beginTitles_append, beginTitles, pushWarn, popWarn, hb, hw]

theorem drawLoop_sensorIdx (T : CounterType)
    (inp : FrameInput) (i : Nat) (l : List Sensor) (w : Int) :
    sensorIdx Method.getWarning (drawLoop T inp i l w).calls = List.range' i l.length
      ∧ sensorIdx Method.name (drawLoop T inp i l w).calls = List.range' i l.length
      ∧ sensorIdx Method.update (drawLoop T inp i l w).calls = [] := by
  induction l generalizing i w with
  | nil => simp [drawLoop, sensorIdx]
  | cons s rest ih =>
    have h := ih (i + 1) (drawSensor T inp i s w).warnStep
    have hs := drawSensor_sensorIdx T inp i s w
    simp [drawLoop, sensorIdx_append, h, hs, List.range'_succ]

theorem drawLoop_beginTitles (T : CounterType)
    (inp : FrameInput) (i : Nat) (l : List Sensor) (w : Int) :
    beginTitles (drawLoop T inp i l w).calls = l.map (fun s => s.st.name) := by
  induction l generalizing i w with
  | nil => simp [drawLoop, beginTitles]
  | cons s rest ih =>
    simp [drawLoop, beginTitles_append, ih, drawSensor_beginTitles]

theorem update_kinds (app : PIHome) (hw : Nat → Sensor → SensorState) :
    (app.update hw).2.sensors_.map Sensor.kind = app.sensors_.map Sensor.kind := by
  simp only [PIHome.update, updateLoop_sensors, List.map_map]
  conv_rhs => rw [← indexed_snd 0 app.sensors_]
  simp only [List.map_map]
  apply List.map_congr_left
  intro p _
  rfl

theorem draw_segment (T : CounterType) (app : PIHome) (inp : FrameInput) (j : Nat) (s : Sensor)
    (h : app.sensors_[j]? = some s) :
    (app.draw T inp).1
      = (drawHeader ++ (drawLoop T inp 0 (app.sensors_.take j) app.warnStep_).calls)
          ++ (drawSensor T inp j s
                (T.advance ((app.sensors_.take j).countP (fun s => s.st.getWarning)) app.warnStep_)).calls
          ++ ((drawLoop T inp (j + 1) (app.sensors_.drop (j + 1))
                (drawSensor T inp j s
                  (T.advance ((app.sensors_.take j).countP (fun s => s.st.getWarning))
                    app.warnStep_)).warnStep).calls
              ++ drawFooter inp) := by
  obtain ⟨hj, hs⟩ := List.getElem?_eq_some.mp h
  have hsplit : app.sensors_ = app.sensors_.take j ++ s :: app.sensors_.drop (j + 1) := by
    rw [← hs, ← List.drop_eq_getElem_cons hj, List.take_append_drop]
  have hlen : (app.sensors_.take j).length = j := by
    rw [List.length_take]
    omega
  have hcalls : (drawLoop T inp 0 app.sensors_ app.warnStep_).calls
      = (drawLoop T inp 0 (app.sensors_.take j ++ s :: app.sensors_.drop (j + 1))
          app.warnStep_).calls := by
    rw [← hsplit]
  simp only [PIHome.draw, hcalls, drawLoop_append, hlen, Nat.zero_add, drawLoop,
    drawLoop_warnStep, List.append_assoc]

theorem depth_append (δ : Call → Int) (a b : List Call) :
    depth δ (a ++ b) = depth δ a + depth δ b := by
  simp [depth]

theorem depth_nil (δ : Call → Int) : depth δ [] = 0 := rfl

theorem depth_cons (δ : Call → Int) (c : Call) (l : List Call) :
    depth δ (c :: l) = δ c + depth δ l := by
  simp [depth]

theorem bounds_nil (δ : Call → Int) (lo hi d : Int) :
    (∀ k, lo ≤ d + depth δ (([] : List Call).take k) ∧ d + depth δ (([] : List Call).take k) ≤ hi)
      ↔ (lo ≤ d ∧ d ≤ hi) := by
  simp [depth]

theorem bounds_cons (δ : Call → Int) (lo hi d : Int) (c : Call) (l : List Call) :
    (∀ k, lo ≤ d + depth δ ((c :: l).take k) ∧ d + depth δ ((c :: l).take k) ≤ hi)
      ↔ ((lo ≤ d ∧ d ≤ hi)
          ∧ ∀ k, lo ≤ (d + δ c) + depth δ (l.take k) ∧ (d + δ c) + depth δ (l.take k) ≤ hi) := by
  constructor
  · intro h
    refine ⟨by simpa [depth] using h 0, fun k => ?_⟩
    have := h (k + 1)
    simp only [List.take_succ_cons, depth_cons] at this
    constructor <;> linarith [this.1, this.2]
  · rintro ⟨h0, h⟩ k
    cases k with
    | zero => simpa [depth] using h0
    | succ k =>
      have := h k
      simp only [List.take_succ_cons, depth_cons]
      constructor <;> linarith [this.1, this.2]

theorem bounds_append (δ : Call → Int) (lo hi d : Int) (a b : List Call) :
    (∀ k, lo ≤ d + depth δ ((a ++ b).take k) ∧ d + depth δ ((a ++ b).take k) ≤ hi)
      ↔ ((∀ k, lo ≤ d + depth δ (a.take k) ∧ d + depth δ (a.take k) ≤ hi)
          ∧ ∀ k, lo ≤ (d + depth δ a) + depth δ (b.take k)
              ∧ (d + depth δ a) + depth δ (b.take k) ≤ hi) := by
  induction a generalizing d with
  | nil =>
    simp only [List.nil_append, bounds_nil]
    constructor
    · intro h
      refine ⟨by simpa [depth] using h 0, by simpa [depth] using h⟩
    · rintro ⟨_, h⟩
      simpa [depth] using h
  | cons c rest ih =>
    rw [List.cons_append, bounds_cons, bounds_cons, ih (d + δ c), depth_cons]
    simp only [and_assoc, add_assoc]

theorem depth_inPanel (l : List Call) (h : l.all Call.inPanel = true) :
    depth styleDelta l = 0 ∧ depth windowDelta l = 0 := by
  induction l with
  | nil => simp [depth]
  | cons c rest ih =>
    simp only [List.all_cons, Bool.and_eq_true] at h
    have hr := ih h.2
    have hc := h.1
    cases c <;> simp_all [depth_cons, styleDelta, windowDelta, Call.inPanel]

theorem bounds_inPanel (δ : Call → Int) (hδ : δ = styleDelta ∨ δ = windowDelta)
    (lo hi d : Int) (l : List Call) (h : l.all Call.inPanel = true) :
    (∀ k, lo ≤ d + depth δ (l.take k) ∧ d + depth δ (l.take k) ≤ hi) ↔ (lo ≤ d ∧ d ≤ hi) := by
  have hz : ∀ k, depth δ (l.take k) = 0 := by
    intro k
    have hk : (l.take k).all Call.inPanel = true := by
      rw [List.all_eq_true] at h ⊢
      intro c hc
      exact h c (List.mem_of_mem_take hc)
    rcases hδ with rfl | rfl
    · exact (depth_inPanel _ hk).1
    · exact (depth_inPanel _ hk).2
  simp [hz]

theorem drawSensor_depth (T : CounterType)
    (inp : FrameInput) (i : Nat) (s : Sensor) (w : Int) (lo hi d : Int) :
    ((lo ≤ d → d + 4 ≤ hi →
        ∀ k, lo ≤ d + depth styleDelta ((drawSensor T inp i s w).calls.take k)
          ∧ d + depth styleDelta ((drawSensor T inp i s w).calls.take k) ≤ hi)
        ∧ depth styleDelta (drawSensor T inp i s w).calls = 0)
      ∧ ((lo ≤ d → d + 1 ≤ hi →
          ∀ k, lo ≤ d + depth windowDelta ((drawSensor T inp i s w).calls.take k)
            ∧ d + depth windowDelta ((drawSensor T inp i s w).calls.take k) ≤ hi)
        ∧ depth windowDelta (drawSensor T inp i s w).calls = 0) := by
  have hb := panelBody_inPanel inp i s
  have hd := depth_inPanel _ hb
  have h1 := fun lo hi d => bounds_inPanel styleDelta (Or.inl rfl) lo hi d _ hb
  have h2 := fun lo hi d => bounds_inPanel windowDelta (Or.inr rfl) lo hi d _ hb
  refine ⟨⟨fun hlo hhi => ?_, ?_⟩, ⟨fun hlo hhi => ?_, ?_⟩⟩ <;>
    cases hw : s.st.getWarning <;>
    simp [drawSensor, pushWarn, popWarn, hw, bounds_append, bounds_cons, bounds_nil,
      depth_append, depth_cons, depth_nil, hd.1, hd.2, h1, h2, styleDelta, windowDelta] <;>
    omega

theorem drawLoop_depth (T : CounterType)
    (inp : FrameInput) (i : Nat) (l : List Sensor) (w : Int) (lo hi d : Int) :
    ((lo ≤ d → d + 4 ≤ hi →
        ∀ k, lo ≤ d + depth styleDelta ((drawLoop T inp i l w).calls.take k)
          ∧ d + depth styleDelta ((drawLoop T inp i l w).calls.take k) ≤ hi)
        ∧ depth styleDelta (drawLoop T inp i l w).calls = 0)
      ∧ ((lo ≤ d → d + 1 ≤ hi →
          ∀ k, lo ≤ d + depth windowDelta ((drawLoop T inp i l w).calls.take k)
            ∧ d + depth windowDelta ((drawLoop T inp i l w).calls.take k) ≤ hi)
        ∧ depth windowDelta (drawLoop T inp i l w).calls = 0) := by
  induction l generalizing i w with
  | nil =>
    refine ⟨⟨fun hlo hhi => ?_, rfl⟩, ⟨fun hlo hhi => ?_, rfl⟩⟩ <;>
      simp [drawLoop, depth_nil] <;> omega
  | cons s rest ih =>
    have h := ih (i + 1) (drawSensor T inp i s w).warnStep
    have hs := drawSensor_depth T inp i s w lo hi d
    simp only [drawLoop, bounds_append, depth_append, hs.1.2, hs.2.2, h.1.2, h.2.2, add_zero]
    exact ⟨⟨fun hlo hhi => ⟨hs.1.1 hlo hhi, h.1.1 hlo hhi⟩, trivial⟩,
      ⟨fun hlo hhi => ⟨hs.2.1 hlo hhi, h.2.1 hlo hhi⟩, trivial⟩⟩

theorem draw_panel_segment (T : CounterType)
    (app : PIHome) (inp : FrameInput) (j : Nat) (s : Sensor)
    (h : app.sensors_[j]? = some s) :
    (app.draw T inp).1
      = (drawHeader ++ (drawLoop T inp 0 (app.sensors_.take j) app.warnStep_).calls)
          ++ [Call.sensor j Method.getWarning]
          ++ (if s.st.getWarning = true then
                fourPushes (Chan.pulse
                  (T.incr (T.advance ((app.sensors_.take j).countP (fun s => s.st.getWarning))
                    app.warnStep_)))
              else [])
          ++ [Call.sensor j Method.name, Call.Begin s.st.name]
          ++ panelBody inp j s
          ++ [Call.End]
          ++ (if s.st.getWarning = true then List.replicate 4 Call.PopStyleColor else [])
          ++ ((drawLoop T inp (j + 1) (app.sensors_.drop (j + 1))
                (drawSensor T inp j s
                  (T.advance ((app.sensors_.take j).countP (fun s => s.st.getWarning))
                    app.warnStep_)).warnStep).calls
              ++ drawFooter inp) := by
  rw [draw_segment T app inp j s h]
  have hp : ∀ red, pushWarn red = fourPushes red := fun _ => rfl
  have hq : popWarn = List.replicate 4 Call.PopStyleColor := rfl
  simp only [drawSensor, hp, hq, List.append_assoc]

theorem draw_pre_sensorIdx (T : CounterType) (app : PIHome) (inp : FrameInput) (j : Nat)
    (hj : j ≤ app.sensors_.length) :
    sensorIdx Method.getWarning
        (drawHeader ++ (drawLoop T inp 0 (app.sensors_.take j) app.warnStep_).calls)
        = List.range j
      ∧ sensorIdx Method.name
          (drawHeader ++ (drawLoop T inp 0 (app.sensors_.take j) app.warnStep_).calls)
          = List.range j := by
  have h := drawLoop_sensorIdx T inp 0 (app.sensors_.take j) app.warnStep_
  have hl : (app.sensors_.take j).length = j := by
    rw [List.length_take]
    omega
  simp [sensorIdx_append, h.1, h.2.1, hl, drawHeader, sensorIdx, List.range_eq_range']

theorem draw_depth (T : CounterType) (app : PIHome) (inp : FrameInput) (lo hi d : Int) :
    ((lo ≤ d → d + 4 ≤ hi →
        ∀ k, lo ≤ d + depth styleDelta ((app.draw T inp).1.take k)
          ∧ d + depth styleDelta ((app.draw T inp).1.take k) ≤ hi)
        ∧ depth styleDelta (app.draw T inp).1 = 0)
      ∧ ((lo ≤ d → d + 1 ≤ hi →
          ∀ k, lo ≤ d + depth windowDelta ((app.draw T inp).1.take k)
            ∧ d + depth windowDelta ((app.draw T inp).1.take k) ≤ hi)
        ∧ depth windowDelta (app.draw T inp).1 = 0) := by
  have hl := drawLoop_depth T inp 0 app.sensors_ app.warnStep_ lo hi d
  refine ⟨⟨fun hlo hhi => ?_, ?_⟩, ⟨fun hlo hhi => ?_, ?_⟩⟩
  · have := hl.1.1 hlo hhi
    simp [PIHome.draw, drawHeader, drawFooter, bounds_append, bounds_cons, bounds_nil,
      depth_append, depth_cons, depth_nil, styleDelta, hl.1.2, this]
    omega
  · simp [PIHome.draw, drawHeader, drawFooter, depth_append, depth_cons, depth_nil,
      styleDelta, hl.1.2]
  · have := hl.2.1 hlo hhi
    simp [PIHome.draw, drawHeader, drawFooter, bounds_append, bounds_cons, bounds_nil,
      depth_append, depth_cons, depth_nil, windowDelta, hl.2.2, this]
    omega
  · simp [PIHome.draw, drawHeader, drawFooter, depth_append, depth_cons, depth_nil,
      windowDelta, hl.2.2]

theorem styleDelta_inPanel (c : Call) (h : c.inPanel = true) : styleDelta c = 0 := by
  cases c <;> simp_all [Call.inPanel, styleDelta]

theorem drawLoop_no_push (T : CounterType) (inp : FrameInput) (i : Nat) (l : List Sensor) (w : Int)
    (hq : ∀ s ∈ l, s.st.getWarning = false) :
    ∀ c ∈ (drawLoop T inp i l w).calls, styleDelta c = 0 := by
  induction l generalizing i w with
  | nil => simp [drawLoop]
  | cons s rest ih =>
    have hs : s.st.getWarning = false := hq s (List.mem_cons_self _ _)
    have hr := ih (i + 1) (drawSensor T inp i s w).warnStep
      (fun t ht => hq t (List.mem_cons_of_mem _ ht))
    have hb := panelBody_inPanel inp i s
    rw [List.all_eq_true] at hb
    intro c hc
    simp only [drawLoop, List.mem_append] at hc
    rcases hc with hc | hc
    · simp only [drawSensor, hs, List.mem_append, List.mem_cons, List.mem_singleton] at hc
      simp at hc
      rcases hc with ((rfl | rfl | rfl) | hc) | rfl
      · rfl
      · rfl
      · rfl
      · exact styleDelta_inPanel c (hb c hc)
      · rfl
    · exact hr c hc

theorem red_bounds (n : ℤ) : 1 / 4 ≤ red n ∧ red n ≤ 3 / 4 := by
  have h1 := Real.neg_one_le_sin ((n : ℝ) * 25 * Real.pi / 180 + 1)
  have h2 := Real.sin_le_one ((n : ℝ) * 25 * Real.pi / 180 + 1)
  unfold red
  constructor <;> linarith

theorem red_period (n : ℤ) : red (n + 72) = red n := by
  unfold red
  have e : (((n + 72 : ℤ) : ℝ) * 25 * Real.pi / 180 + 1)
      = ((n : ℝ) * 25 * Real.pi / 180 + 1) + ((5 : ℤ) : ℝ) * (2 * Real.pi) := by
    push_cast
    ring
  rw [e, Real.sin_add_int_mul_two_pi]

theorem red_min_period (k : ℤ) (hk : 0 < k) (hper : ∀ m : ℤ, red (m + k) = red m) :
    72 ≤ k := by
  have hpi : Real.pi ≠ 0 := Real.pi_ne_zero
  have h0 := hper 0
  have h1 := hper 1
  simp only [red] at h0 h1
  have e0 : Real.sin (((0 + k : ℤ) : ℝ) * 25 * Real.pi / 180 + 1)
      = Real.sin (((0 : ℤ) : ℝ) * 25 * Real.pi / 180 + 1) := by linarith
  have e1 : Real.sin (((1 + k : ℤ) : ℝ) * 25 * Real.pi / 180 + 1)
      = Real.sin (((1 : ℤ) : ℝ) * 25 * Real.pi / 180 + 1) := by linarith
  rw [Real.sin_eq_sin_iff] at e0 e1
  obtain ⟨a, ha⟩ := e0
  obtain ⟨b, hb⟩ := e1
  push_cast at ha hb
  have sameAngle : ∀ c : ℤ, (k : ℝ) * 25 + 360 * c = 0 → 72 ≤ k := by
    intro c hc
    have hz : k * 25 + 360 * c = 0 := by exact_mod_cast hc
    omega
  rcases ha with ha | ha
  · apply sameAngle a
    have h : ((k : ℝ) * 25 + 360 * a) * Real.pi = 0 := by linarith
    rcases mul_eq_zero.mp h with h | h
    · exact h
    · exact absurd h hpi
  · rcases hb with hb | hb
    · apply sameAngle b
      have h : ((k : ℝ) * 25 + 360 * b) * Real.pi = 0 := by linarith
      rcases mul_eq_zero.mp h with h | h
      · exact h
      · exact absurd h hpi
    · exfalso
      have h : ((36 : ℝ) * (b - a) - 5) * Real.pi = 0 := by linarith
      rcases mul_eq_zero.mp h with h | h
      · have hz : (36 : ℤ) * (b - a) - 5 = 0 := by exact_mod_cast h
        omega
      · exact hpi h

theorem countP_inPanel (l : List Call) (h : l.all Call.inPanel = true) :
    l.countP Call.isPush = 0 ∧ l.countP Call.isPop = 0 := by
  induction l with
  | nil => simp
  | cons c rest ih =>
    simp only [List.all_cons, Bool.and_eq_true] at h
    have hr := ih h.2
    have hc := h.1
    cases c <;> simp_all [List.countP_cons, Call.isPush, Call.isPop, Call.inPanel]

theorem drawLoop_countP (T : CounterType) (inp : FrameInput) (i : Nat) (l : List Sensor) (w : Int) :
    (drawLoop T inp i l w).calls.countP Call.isPush = 4 * l.countP (fun s => s.st.getWarning)
      ∧ (drawLoop T inp i l w).calls.countP Call.isPop
          = 4 * l.countP (fun s => s.st.getWarning) := by
  induction l generalizing i w with
  | nil => simp [drawLoop]
  | cons s rest ih =>
    have hb := countP_inPanel _ (panelBody_inPanel inp i s)
    cases hw : s.st.getWarning
    · simp [drawLoop, drawSensor, hw, List.countP_cons, List.countP_append, ih,
        hb.1, hb.2, Call.isPush, Call.isPop]
    · simp [drawLoop, drawSensor, hw, List.countP_cons, List.countP_append, ih,
        hb.1, hb.2, Call.isPush, Call.isPop, pushWarn, popWarn]
      omega

theorem advance_of_le (T : CounterType) (k : Nat) (w : Int) (h : w + k ≤ T.top) :
    T.advance k w = w + k := by
  induction k generalizing w with
  | zero => simp [CounterType.advance]
  | succ k ih =>
    have hne : w ≠ T.top := by
      intro he
      rw [he] at h
      push_cast at h
      omega
    have hi : T.incr w = w + 1 := by simp [CounterType.incr, hne]
    have hk : w + 1 + (k : Int) ≤ T.top := by
      push_cast at h
      omega
    rw [CounterType.advance, hi, ih (w + 1) hk]
    push_cast
    ring

theorem incr_of_lt (T : CounterType) (w : Int) (h : w < T.top) : T.incr w = w + 1 := by
  have hne : w ≠ T.top := ne_of_lt h
  simp [CounterType.incr, hne]

theorem draw_kinds (T : CounterType) (app : PIHome) (inp : FrameInput) :
    (app.draw T inp).2.sensors_.map Sensor.kind = app.sensors_.map Sensor.kind := by
  simp only [PIHome.draw, drawLoop_sensors, List.map_map]
  conv_rhs => rw [← indexed_snd 0 app.sensors_]
  simp only [List.map_map]
  apply List.map_congr_left
  intro p _
  exact (cameraState_ident inp p.1 p.2).1

theorem run_kinds (T : CounterType) (steps : List Step) (app : PIHome) :
    (run T steps app).sensors_.map Sensor.kind = app.sensors_.map Sensor.kind := by
  induction steps generalizing app with
  | nil => rfl
  | cons st rest ih =>
    have h := ih (step T app st)
    simp only [run, List.foldl_cons] at h ⊢
    rw [h]
    cases st with
    | update hw => exact update_kinds app hw
    | draw inp => exact draw_kinds T app inp

theorem reachable_kinds (T : CounterType) (env : BootEnv) (app0 : PIHome)
    (hc : (PIHome.PIHome env).2 = Except.ok app0) (steps : List Step) :
    (run T steps app0).sensors_.map Sensor.kind
      = [SensorKind.MQ135Sensor, SensorKind.PIRSensor, SensorKind.CameraSensor] := by
  rw [run_kinds, (ctor_ok_exiting env app0 hc).2.2]
  rfl

theorem session_closeFlag (T : CounterType) (events : List Event) (σ : Session)
    (h : σ.closeFlag ≠ 0) : (Session.run T events σ).closeFlag ≠ 0 := by
  induction events generalizing σ with
  | nil => exact h
  | cons e rest ih =>
    simp only [Session.run, List.foldl_cons]
    apply ih
    cases e with
    | call st => exact h
    | closeRequest => simp [Session.apply]

theorem session_not_running (σ : Session) (h : σ.closeFlag ≠ 0) : σ.isRunning = false := by
  simp [Session.isRunning, PIHome.isRunning, h]

/-! ## C2, C3, C4: the running predicate -/

/-- C2: `isRunning()` returns true if and only if the windowing layer does not report a
close request (`glfwWindowShouldClose` returns 0) and `exiting_` is false; it returns false
exactly when the window was closed or `exiting_` is set; and it leaves the object as it is. -/
theorem isRunning_iff (app : PIHome) (shouldClose : Int) :
    ((app.isRunning shouldClose).1 = true ↔ (shouldClose = 0 ∧ app.exiting_ = false))
      ∧ ((app.isRunning shouldClose).1 = false ↔ (shouldClose ≠ 0 ∨ app.exiting_ = true))
      ∧ (app.isRunning shouldClose).2 = app := by
  refine ⟨?_, ?_, rfl⟩
  · simp [PIHome.isRunning]
  · by_cases h : shouldClose = 0 <;> simp [PIHome.isRunning, h]

/-- C3: in every run of the loop, once the windowing layer has recorded a close request the
next `isRunning()` check returns false, and so does every check after any further sequence of
`update()`/`draw()` calls and close requests; more generally, from any state in which
`glfwWindowShouldClose(window_)` reports a set flag, the flag stays set and `isRunning()`
stays false through every such sequence: the predicate never goes back to true. -/
theorem close_signal_latched (T : CounterType) (σ : Session) (before after : List Event)
    (τ : Session) (hτ : τ.closeFlag ≠ 0) (events : List Event) :
    ((Session.run T before σ).apply T Event.closeRequest).isRunning = false
      ∧ (Session.run T after
            ((Session.run T before σ).apply T Event.closeRequest)).isRunning = false
      ∧ τ.isRunning = false
      ∧ (Session.run T events τ).closeFlag ≠ 0
      ∧ (Session.run T events τ).isRunning = false := by
  have hreq : ((Session.run T before σ).apply T Event.closeRequest).closeFlag ≠ 0 := by
    simp [Session.apply]
  exact ⟨session_not_running _ hreq,
    session_not_running _ (session_closeFlag T after _ hreq),
    session_not_running _ hτ, session_closeFlag T events τ hτ,
    session_not_running _ (session_closeFlag T events τ hτ)⟩

theorem close_signal_latched_witness :
    (Session.mk goodApp 0).isRunning = true
      ∧ (Session.mk goodApp 1).closeFlag ≠ 0
      ∧ ((Session.run int32 [Event.call (Step.update idleRead)]
            (Session.mk goodApp 0)).apply int32 Event.closeRequest).isRunning = false
      ∧ (Session.run int32 [Event.call (Step.update idleRead), Event.call (Step.draw idleFrame)]
            ((Session.run int32 [Event.call (Step.update idleRead)]
              (Session.mk goodApp 0)).apply int32 Event.closeRequest)).isRunning = false :=
  ⟨rfl, by decide,
    (close_signal_latched int32 (Session.mk goodApp 0) [Event.call (Step.update idleRead)]
      [Event.call (Step.update idleRead), Event.call (Step.draw idleFrame)]
      (Session.mk goodApp 1) (by decide) []).1,
    (close_signal_latched int32 (Session.mk goodApp 0) [Event.call (Step.update idleRead)]
      [Event.call (Step.update idleRead), Event.call (Step.draw idleFrame)]
      (Session.mk goodApp 1) (by decide) []).2.1⟩

/-- C4: `exiting_` is false right after a successful construction; a `draw()` in which Exit
is pressed sets it; after any `update()` or `draw()` it is set if it was set before or Exit
was pressed in that call, so no call clears it; and after a `draw()` with Exit pressed
`isRunning()` returns false after every later sequence of calls, whatever the window-close
flag reports. -/
theorem exit_flag_latch (T : CounterType) (env : BootEnv) (app0 : PIHome)
    (hc : (PIHome.PIHome env).2 = Except.ok app0) (app : PIHome) (inp : FrameInput)
    (hp : inp.exitPressed = true) (st : Step) (steps : List Step) (shouldClose : Int) :
    app0.exiting_ = false
      ∧ (app.draw T inp).2.exiting_ = true
      ∧ (step T app st).exiting_ = (app.exiting_ || st.exitPressed)
      ∧ (run T steps app).exiting_ = (app.exiting_ || steps.any Step.exitPressed)
      ∧ ((run T steps (app.draw T inp).2).isRunning shouldClose).1 = false := by
  refine ⟨(ctor_ok_exiting env app0 hc).1, ?_, step_exiting T app st, run_exiting T steps app, ?_⟩
  · simp [PIHome.draw, hp]
  · have hd : (app.draw T inp).2.exiting_ = true := by simp [PIHome.draw, hp]
    have h := run_exiting T steps (app.draw T inp).2
    rw [hd] at h
    simp [PIHome.isRunning, h]

theorem exit_flag_latch_witness :
    (PIHome.PIHome goodEnv).2 = Except.ok goodApp ∧ exitFrame.exitPressed = true
      ∧ goodApp.exiting_ = false
      ∧ (goodApp.draw int32 exitFrame).2.exiting_ = true
      ∧ (step int32 goodApp (Step.update idleRead)).exiting_
          = (goodApp.exiting_ || (Step.update idleRead).exitPressed)
      ∧ (run int32 [Step.update idleRead, Step.draw idleFrame] goodApp).exiting_
          = (goodApp.exiting_ || [Step.update idleRead, Step.draw idleFrame].any Step.exitPressed)
      ∧ ((run int32 [Step.update idleRead, Step.draw idleFrame]
            (goodApp.draw int32 exitFrame).2).isRunning 0).1 = false :=
  ⟨rfl, rfl, exit_flag_latch int32 goodEnv goodApp rfl goodApp exitFrame rfl (Step.update idleRead)
    [Step.update idleRead, Step.draw idleFrame] 0⟩

/-! ## C1: registry order -/

/-- C1: for every registry, one `update()` calls `update()` on the entries 0, 1, ..., n-1, each
once and in this order, and nothing else but the final `usleep`; one `draw()` opens, after the
status panel, one panel per entry, titled with the name of entry 0, 1, ..., n-1 in this order,
reading `getWarning()` and `name()` of each entry once in the same order; after either call
the registry holds the same entries (same class and constructor arguments) at the same
positions, only their accessor state may differ. -/
theorem registry_order (T : CounterType)
    (app : PIHome) (hw : Nat → Sensor → SensorState) (inp : FrameInput) :
    (app.update hw).1
        = (indexed 0 app.sensors_).map (fun p => Call.sensor p.1 Method.update)
            ++ [Call.usleep 100000]
      ∧ sensorIdx Method.update (app.update hw).1 = List.range app.sensors_.length
      ∧ beginTitles (app.draw T inp).1 = "piHome" :: app.sensors_.map (fun s => s.st.name)
      ∧ sensorIdx Method.name (app.draw T inp).1 = List.range app.sensors_.length
      ∧ sensorIdx Method.getWarning (app.draw T inp).1 = List.range app.sensors_.length
      ∧ sensorIdx Method.update (app.draw T inp).1 = []
      ∧ (app.update hw).2.sensors_
          = (indexed 0 app.sensors_).map (fun p => { p.2 with st := hw p.1 p.2 })
      ∧ (app.draw T inp).2.sensors_
          = (indexed 0 app.sensors_).map (fun p => cameraState inp p.1 p.2)
      ∧ (app.update hw).2.sensors_.map Sensor.ident = app.sensors_.map Sensor.ident
      ∧ (app.draw T inp).2.sensors_.map Sensor.ident = app.sensors_.map Sensor.ident := by
  have hd := drawLoop_sensorIdx T inp 0 app.sensors_ app.warnStep_
  have hident : ∀ (f : Nat × Sensor → Sensor), (∀ p, (f p).ident = p.2.ident) →
      ((indexed 0 app.sensors_).map f).map Sensor.ident = app.sensors_.map Sensor.ident := by
    intro f hf
    conv_rhs => rw [← indexed_snd 0 app.sensors_]
    simp only [List.map_map]
    apply List.map_congr_left
    intro p _
    exact hf p
  refine ⟨?_, ?_, ?_, ?_, ?_, ?_, ?_, ?_, ?_, ?_⟩
  · simp [PIHome.update, updateLoop_calls]
  · simp [PIHome.update, updateLoop_calls, sensorIdx_append, sensorIdx_update_calls,
      sensorIdx, List.range_eq_range']
  · simp [PIHome.draw, beginTitles_append, drawLoop_beginTitles, drawHeader, drawFooter,
      beginTitles]
  · simp [PIHome.draw, sensorIdx_append, hd, drawHeader, drawFooter, sensorIdx,
      List.range_eq_range']
  · simp [PIHome.draw, sensorIdx_append, hd, drawHeader, drawFooter, sensorIdx,
      List.range_eq_range']
  · simp [PIHome.draw, sensorIdx_append, hd, drawHeader, drawFooter, sensorIdx]
  · simp [PIHome.update, updateLoop_sensors]
  · simp [PIHome.draw, drawLoop_sensors]
  · simp only [PIHome.update, updateLoop_sensors]
    exact hident _ (fun p => rfl)
  · simp only [PIHome.draw, drawLoop_sensors]
    refine hident _ (fun p => ?_)
    have h := cameraState_ident inp p.1 p.2
    simp [Sensor.ident, h.1, h.2]

/-! ## C5: start-up -/

theorem attempted_windowHints (env : BootEnv) (mode : GLFWvidmode) :
    attempted (windowHints env mode) = [] ∧ constructed (windowHints env mode) = [] := by
  cases h : env.hasContextCreationApi <;>
    simp [attempted, constructed, windowHints, h, BootCall.stepIndex, BootCall.constructs]

theorem attempted_bootTail (env : BootEnv) (window : Nat) :
    attempted (bootTail env window) = []
      ∧ constructed (bootTail env window)
          = [(SensorKind.MQ135Sensor, [19]), (SensorKind.PIRSensor, [20]),
             (SensorKind.CameraSensor, [])] := by
  simp [attempted, constructed, bootTail, bootSensors, printNames, BootCall.stepIndex,
    BootCall.constructs]

/-- C5: the constructor throws if and only if at least one of the five start-up steps fails;
if step `k` is the first that fails, the error is that step's message, exactly the steps
0..k have been attempted and no sensor has been constructed; if none fails, all five steps
have been attempted and the object is constructed with `exiting_` false, `warnStep_` 0 and a
registry holding, in this order, the MQ-135 gas sensor on pin 19, the PIR motion sensor on
pin 20 and the camera sensor, and no DHT11 sensor. -/
theorem ctor_outcome (env : BootEnv) :
    ((∃ msg, (PIHome.PIHome env).2 = Except.error msg) ↔ ∃ k, k < 5 ∧ stepFails env k = true)
      ∧ (∀ k, k < 5 → stepFails env k = true → (∀ j, j < k → stepFails env j = false) →
          (PIHome.PIHome env).2 = Except.error (stepError k)
            ∧ attempted (PIHome.PIHome env).1 = List.range (k + 1)
            ∧ constructed (PIHome.PIHome env).1 = [])
      ∧ ((∀ k, k < 5 → stepFails env k = false) →
          ∃ window, env.createWindow = some window
            ∧ (PIHome.PIHome env).2
                = Except.ok { exiting_ := false, warnStep_ := 0, window_ := window,
                              sensors_ := bootSensors env }
            ∧ (bootSensors env).map Sensor.ident
                = [(SensorKind.MQ135Sensor, [19]), (SensorKind.PIRSensor, [20]),
                   (SensorKind.CameraSensor, [])]
            ∧ attempted (PIHome.PIHome env).1 = List.range 5
            ∧ constructed (PIHome.PIHome env).1
                = [(SensorKind.MQ135Sensor, [19]), (SensorKind.PIRSensor, [20]),
                   (SensorKind.CameraSensor, [])]) := by
  have key : ∀ k, k < 5 → stepFails env k = true → (∀ j, j < k → stepFails env j = false) →
      (PIHome.PIHome env).2 = Except.error (stepError k)
        ∧ attempted (PIHome.PIHome env).1 = List.range (k + 1)
        ∧ constructed (PIHome.PIHome env).1 = [] := by
    intro k hk hf hmin
    interval_cases k
    · have h0 : env.gpioSetup = -1 := by simpa [stepFails] using hf
      simp [PIHome.PIHome, h0, stepError, attempted, constructed, BootCall.stepIndex,
        BootCall.constructs, List.range_succ]
    · have h0 : env.gpioSetup ≠ -1 := by simpa [stepFails] using hmin 0 (by omega)
      have h1 : env.glfwInit = 0 := by simpa [stepFails] using hf
      simp [PIHome.PIHome, h0, h1, stepError, attempted, constructed, BootCall.stepIndex,
        BootCall.constructs, List.range_succ]
    · have h0 : env.gpioSetup ≠ -1 := by simpa [stepFails] using hmin 0 (by omega)
      have h1 : env.glfwInit ≠ 0 := by simpa [stepFails] using hmin 1 (by omega)
      have h2 : env.primaryMonitor = none := by simpa [stepFails] using hf
      simp [PIHome.PIHome, h0, h1, h2, stepError, attempted, constructed, BootCall.stepIndex,
        BootCall.constructs, List.range_succ]
    · have h0 : env.gpioSetup ≠ -1 := by simpa [stepFails] using hmin 0 (by omega)
      have h1 : env.glfwInit ≠ 0 := by simpa [stepFails] using hmin 1 (by omega)
      have h2 : env.primaryMonitor.isNone = false := by simpa [stepFails] using hmin 2 (by omega)
      have h3 : env.videoMode = none := by simpa [stepFails] using hf
      obtain ⟨m, hm⟩ := Option.isSome_iff_exists.mp (by simpa using h2 : env.primaryMonitor.isSome)
      simp [PIHome.PIHome, h0, h1, hm, h3, stepError, attempted, constructed,
        BootCall.stepIndex, BootCall.constructs, List.range_succ]
    · have h0 : env.gpioSetup ≠ -1 := by simpa [stepFails] using hmin 0 (by omega)
      have h1 : env.glfwInit ≠ 0 := by simpa [stepFails] using hmin 1 (by omega)
      have h2 : env.primaryMonitor.isNone = false := by simpa [stepFails] using hmin 2 (by omega)
      have h3 : env.videoMode.isNone = false := by simpa [stepFails] using hmin 3 (by omega)
      have h4 : env.createWindow = none := by simpa [stepFails] using hf
      obtain ⟨m, hm⟩ := Option.isSome_iff_exists.mp (by simpa using h2 : env.primaryMonitor.isSome)
      obtain ⟨v, hv⟩ := Option.isSome_iff_exists.mp (by simpa using h3 : env.videoMode.isSome)
      have ha := attempted_windowHints env v
      simp only [attempted, constructed] at ha
      simp [PIHome.PIHome, h0, h1, hm, hv, h4, stepError, attempted, constructed,
        BootCall.stepIndex, BootCall.constructs, List.range_succ, ha.1, ha.2]
  have good : (∀ k, k < 5 → stepFails env k = false) →
      ∃ window, env.createWindow = some window
        ∧ (PIHome.PIHome env).2
            = Except.ok { exiting_ := false, warnStep_ := 0, window_ := window,
                          sensors_ := bootSensors env }
        ∧ (bootSensors env).map Sensor.ident
            = [(SensorKind.MQ135Sensor, [19]), (SensorKind.PIRSensor, [20]),
               (SensorKind.CameraSensor, [])]
        ∧ attempted (PIHome.PIHome env).1 = List.range 5
        ∧ constructed (PIHome.PIHome env).1
            = [(SensorKind.MQ135Sensor, [19]), (SensorKind.PIRSensor, [20]),
               (SensorKind.CameraSensor, [])] := by
    intro hall
    have h0 : env.gpioSetup ≠ -1 := by simpa [stepFails] using hall 0 (by omega)
    have h1 : env.glfwInit ≠ 0 := by simpa [stepFails] using hall 1 (by omega)
    have h2 : env.primaryMonitor.isNone = false := by simpa [stepFails] using hall 2 (by omega)
    have h3 : env.videoMode.isNone = false := by simpa [stepFails] using hall 3 (by omega)
    have h4 : env.createWindow.isNone = false := by simpa [stepFails] using hall 4 (by omega)
    obtain ⟨m, hm⟩ := Option.isSome_iff_exists.mp (by simpa using h2 : env.primaryMonitor.isSome)
    obtain ⟨v, hv⟩ := Option.isSome_iff_exists.mp (by simpa using h3 : env.videoMode.isSome)
    obtain ⟨win, hwin⟩ := Option.isSome_iff_exists.mp (by simpa using h4 : env.createWindow.isSome)
    have ha := attempted_windowHints env v
    have hb := attempted_bootTail env win
    simp only [attempted, constructed] at ha hb
    refine ⟨win, hwin, ?_, ?_, ?_, ?_⟩
    · simp [PIHome.PIHome, h0, h1, hm, hv, hwin]
    · simp [bootSensors, newSensor, Sensor.ident]
    · simp [PIHome.PIHome, h0, h1, hm, hv, hwin, attempted, BootCall.stepIndex,
        List.range_succ, ha.1, hb.1]
    · simp [PIHome.PIHome, h0, h1, hm, hv, hwin, constructed, BootCall.constructs, ha.2, hb.2]
  refine ⟨?_, key, good⟩
  constructor
  · rintro ⟨msg, hmsg⟩
    by_contra hne
    push_neg at hne
    obtain ⟨win, _, hok, _⟩ := good (fun k hk => by simpa using hne k hk)
    rw [hok] at hmsg
    cases hmsg
  · rintro ⟨k, hk, hf⟩
    have hex : ∃ k, k < 5 ∧ stepFails env k = true := ⟨k, hk, hf⟩
    classical
    let k0 := Nat.find hex
    have hk0 := Nat.find_spec hex
    have hmin : ∀ j, j < k0 → stepFails env j = false := by
      intro j hj
      have := Nat.find_min hex hj
      by_contra hc
      exact this ⟨by omega, by simpa using hc⟩
    exact ⟨_, (key k0 hk0.1 hk0.2 hmin).1⟩

theorem ctor_outcome_witness :
    ((2 < 5 ∧ stepFails rdpEnv 2 = true ∧ (∀ j, j < 2 → stepFails rdpEnv j = false))
        ∧ (PIHome.PIHome rdpEnv).2 = Except.error (stepError 2)
        ∧ attempted (PIHome.PIHome rdpEnv).1 = List.range (2 + 1)
        ∧ constructed (PIHome.PIHome rdpEnv).1 = [])
      ∧ ((∀ k, k < 5 → stepFails goodEnv k = false) ∧ (PIHome.PIHome goodEnv).2 = Except.ok goodApp) :=
  have hr : ∀ j, j < 2 → stepFails rdpEnv j = false := by
    intro j hj
    interval_cases j <;> rfl
  have hg : ∀ k, k < 5 → stepFails goodEnv k = false := by
    intro k hk
    interval_cases k <;> rfl
  ⟨⟨⟨by decide, rfl, hr⟩, (ctor_outcome rdpEnv).2.1 2 (by decide) rfl hr⟩,
    ⟨hg, by
      obtain ⟨w, hw, hok, _⟩ := (ctor_outcome goodEnv).2.2 hg
      cases hw
      exact hok⟩⟩

/-! ## C6: the phase counter -/

theorem count_takePicture_inBlocks (j i : Nat) (s : Sensor) :
    List.count (Call.sensor j Method.takePicture) (pirPanel i s) = 0
      ∧ List.count (Call.sensor j Method.takePicture) (mq135Panel i s) = 0 := by
  constructor
  · unfold pirPanel
    split_ifs <;> (try split) <;> simp [List.count_cons]
  · unfold mq135Panel
    split_ifs <;> simp [List.count_cons]

theorem count_takePicture_cameraPanel (inp : FrameInput) (j i : Nat) (s : Sensor) :
    List.count (Call.sensor j Method.takePicture) (cameraPanel inp i s)
      = if i = j ∧ s.kind = SensorKind.CameraSensor ∧ inp.takePressed i = true then 1 else 0 := by
  unfold cameraPanel
  by_cases hij : i = j
  · subst hij
    by_cases hk : s.kind = SensorKind.CameraSensor <;>
      by_cases hp : inp.takePressed i = true <;> simp [hk, hp, List.count_cons]
  · by_cases hk : s.kind = SensorKind.CameraSensor <;>
      by_cases hp : inp.takePressed i = true <;> simp [hk, hp, hij, List.count_cons]

theorem count_takePicture_drawSensor (T : CounterType)
    (inp : FrameInput) (j i : Nat) (s : Sensor) (w : Int) :
    List.count (Call.sensor j Method.takePicture) (drawSensor T inp i s w).calls
      = if i = j ∧ s.kind = SensorKind.CameraSensor ∧ inp.takePressed i = true then 1 else 0 := by
  have h1 := count_takePicture_inBlocks j i (cameraState inp i s)
  have h2 := count_takePicture_cameraPanel inp j i s
  cases hw : s.st.getWarning <;>
    simp [drawSensor, panelBody, pushWarn, popWarn, List.count_cons, h1.1, h1.2, h2, hw]

theorem count_takePicture_drawLoop (T : CounterType)
    (inp : FrameInput) (j : Nat) (l : List Sensor) (i : Nat) (w : Int) :
    List.count (Call.sensor j Method.takePicture) (drawLoop T inp i l w).calls
      = if i ≤ j ∧ l[j - i]?.map Sensor.kind = some SensorKind.CameraSensor
            ∧ inp.takePressed j = true then 1 else 0 := by
  induction l generalizing i w with
  | nil => simp [drawLoop]
  | cons s rest ih =>
    have h := ih (i + 1) (drawSensor T inp i s w).warnStep
    simp only [drawLoop, List.count_append, count_takePicture_drawSensor, h]
    rcases Nat.lt_trichotomy i j with hlt | heq | hgt
    · have e : j - i = (j - (i + 1)) + 1 := by omega
      have h1 : ¬ i = j := by omega
      have h2 : i + 1 ≤ j := by omega
      have h3 : i ≤ j := by omega
      rw [e, List.getElem?_cons_succ]
      simp [h1, h2, h3]
    · subst heq
      have h2 : ¬ i + 1 ≤ i := by omega
      simp [h2]
    · have h1 : ¬ i = j := by omega
      have h2 : ¬ i + 1 ≤ j := by omega
      have h3 : ¬ i ≤ j := by omega
      simp [h1, h2, h3]

/-- C7: in one loop iteration (`update()` followed by `draw()`), the number of
`takePicture()` calls on registry entry `j` is 1 if that entry is a camera sensor and the
Take picture button of its panel was pressed in that frame, and 0 otherwise (so 0 for a gas,
a motion or a temperature sensor, and 0 for a camera whose button was not pressed);
`update()` itself makes no such call, and all of them are made by `draw()`. -/
theorem takePicture_on_demand (T : CounterType) (app : PIHome) (hw : Nat → Sensor → SensorState)
    (inp : FrameInput) (j : Nat) :
    List.count (Call.sensor j Method.takePicture)
        ((app.update hw).1 ++ ((app.update hw).2.draw T inp).1)
        = (if app.sensors_[j]?.map Sensor.kind = some SensorKind.CameraSensor
              ∧ inp.takePressed j = true then 1 else 0)
      ∧ List.count (Call.sensor j Method.takePicture) (app.update hw).1 = 0
      ∧ List.count (Call.sensor j Method.takePicture) (app.draw T inp).1
          = (if app.sensors_[j]?.map Sensor.kind = some SensorKind.CameraSensor
              ∧ inp.takePressed j = true then 1 else 0) := by
  have hu : List.count (Call.sensor j Method.takePicture) (app.update hw).1 = 0 := by
    simp only [PIHome.update, updateLoop_calls]
    rw [List.count_eq_zero]
    simp
  have hd : ∀ a : PIHome, List.count (Call.sensor j Method.takePicture) (a.draw T inp).1
      = (if a.sensors_[j]?.map Sensor.kind = some SensorKind.CameraSensor
            ∧ inp.takePressed j = true then 1 else 0) := by
    intro a
    simp [PIHome.draw, drawHeader, drawFooter, List.count_cons, count_takePicture_drawLoop]
  have hk : (app.update hw).2.sensors_[j]?.map Sensor.kind
      = app.sensors_[j]?.map Sensor.kind := by
    have h := (update_kinds app hw)
    rw [← List.getElem?_map, ← List.getElem?_map, h]
  refine ⟨?_, hu, hd app⟩
  rw [List.count_append, hu, hd, hk, Nat.zero_add]

/-! ## C8: panel content -/

theorem panel_segment_content (T : CounterType)
    (app : PIHome) (inp : FrameInput) (j : Nat) (s : Sensor)
    (h : app.sensors_[j]? = some s) :
    (∃ pre post, (app.draw T inp).1
          = pre ++ [Call.sensor j Method.name, Call.Begin s.st.name] ++ panelBody inp j s
              ++ [Call.End] ++ post
        ∧ sensorIdx Method.name pre = List.range j)
      ∧ (panelBody inp j s).all Call.inPanel = true
      ∧ (∀ c ∈ panelBody inp j s, c.contentKind = none ∨ c.contentKind = some s.kind)
      ∧ (s.kind ≠ SensorKind.DHT11Sensor →
          ∃ c ∈ panelBody inp j s, c.contentKind = some s.kind)
      ∧ (s.kind = SensorKind.DHT11Sensor → panelBody inp j s = [])
      ∧ (s.kind = SensorKind.MQ135Sensor →
          (Call.Text "GAS detected" [] ∈ panelBody inp j s ↔ s.st.getDetected = true)
            ∧ (Call.Text "OK" [] ∈ panelBody inp j s ↔ s.st.getDetected = false))
      ∧ (s.kind = SensorKind.PIRSensor →
          Call.Text "Detected counter %d" [Arg.int s.st.getData.count] ∈ panelBody inp j s
            ∧ (∀ t, Call.Text "Last detected local time and date: %s" [Arg.asctime t]
                  ∈ panelBody inp j s ↔ s.st.getData.timeinfo = some t)
            ∧ (Call.Text "MOTION DETECTED" [] ∈ panelBody inp j s
                ↔ s.st.getData.detected = true))
      ∧ (s.kind = SensorKind.CameraSensor →
          Call.Text "Image" [] ∈ panelBody inp j s
            ∧ Call.Button "Take picture" ∈ panelBody inp j s
            ∧ Call.Image (cameraState inp j s).st.getImage.textureID 320 240
                ∈ panelBody inp j s) := by
  have hj : j < app.sensors_.length := (List.getElem?_eq_some.mp h).1
  have hs : (cameraState inp j s).kind = s.kind := (cameraState_ident inp j s).1
  refine ⟨?_, panelBody_inPanel inp j s, ?_, ?_, ?_, ?_, ?_, ?_⟩
  · refine ⟨(drawHeader ++ (drawLoop T inp 0 (app.sensors_.take j) app.warnStep_).calls)
          ++ [Call.sensor j Method.getWarning]
          ++ (if s.st.getWarning = true then
                fourPushes (Chan.pulse
                  (T.incr (T.advance ((app.sensors_.take j).countP (fun s => s.st.getWarning))
                    app.warnStep_)))
              else []),
        (if s.st.getWarning = true then List.replicate 4 Call.PopStyleColor else [])
          ++ ((drawLoop T inp (j + 1) (app.sensors_.drop (j + 1))
                (drawSensor T inp j s
                  (T.advance ((app.sensors_.take j).countP (fun s => s.st.getWarning))
                    app.warnStep_)).warnStep).calls
              ++ drawFooter inp), ?_, ?_⟩
    · rw [draw_panel_segment T app inp j s h]
      simp only [List.append_assoc]
    · have hpre := (draw_pre_sensorIdx T app inp j (le_of_lt hj)).2
      rw [sensorIdx_append, sensorIdx_append, hpre]
      cases hw : s.st.getWarning <;> simp [sensorIdx, fourPushes]
  · intro c hc
    cases hk : s.kind <;>
      simp only [panelBody, cameraPanel, pirPanel, mq135Panel, hs, hk] at hc <;>
      simp at hc
    · rcases hc with ⟨_, rfl⟩ | hc
      · simp [Call.contentKind]
      · split at hc <;> simp at hc <;> subst hc <;> simp [Call.contentKind]
    · rcases hc with ⟨_, rfl⟩ | hc | ⟨_, rfl⟩ | ⟨_, rfl⟩
      · simp [Call.contentKind]
      · split at hc <;> simp at hc
        subst hc
        simp [Call.contentKind]
      · simp [Call.contentKind]
      · simp [Call.contentKind]
    · rcases hc with ⟨_, rfl⟩ | ⟨_, rfl⟩ | ⟨_, rfl⟩ | ⟨_, rfl⟩ | ⟨_, rfl⟩ | ⟨_, rfl⟩ | ⟨_, rfl⟩ <;>
        simp [Call.contentKind]
  · intro hne
    cases hk : s.kind
    · refine ⟨Call.Text (if s.st.getDetected = true then "GAS detected" else "OK") [], ?_, ?_⟩
      · cases hd : s.st.getDetected <;>
          simp [panelBody, cameraPanel, pirPanel, mq135Panel, hs, hk, cameraState, hd]
      · cases hd : s.st.getDetected <;> simp [Call.contentKind]
    · refine ⟨Call.Text "Detected counter %d" [Arg.int s.st.getData.count], ?_, ?_⟩
      · simp [panelBody, cameraPanel, pirPanel, mq135Panel, hs, hk, cameraState]
      · simp [Call.contentKind]
    · refine ⟨Call.Text "Image" [], ?_, ?_⟩
      · simp [panelBody, cameraPanel, hk]
      · simp [Call.contentKind]
    · exact absurd hk hne
  · intro hk
    simp [panelBody, cameraPanel, pirPanel, mq135Panel, hs, hk]
  · intro hk
    cases hd : s.st.getDetected <;>
      simp [panelBody, cameraPanel, pirPanel, mq135Panel, hs, hk, cameraState, hd]
  · intro hk
    refine ⟨?_, ?_, ?_⟩
    · simp [panelBody, cameraPanel, pirPanel, mq135Panel, hs, hk, cameraState]
    · intro t
      cases ht : s.st.getData.timeinfo <;> cases hd : s.st.getData.detected <;>
        simp [panelBody, cameraPanel, pirPanel, mq135Panel, hs, hk, cameraState, ht, hd] <;>
        exact eq_comm
    · cases ht : s.st.getData.timeinfo <;> cases hd : s.st.getData.detected <;>
        simp [panelBody, cameraPanel, pirPanel, mq135Panel, hs, hk, cameraState, ht, hd]
  · intro hk
    simp [panelBody, cameraPanel, hk]

/-- C8: in every state the application reaches (construction followed by any sequence of
`update()`/`draw()` calls) every registry entry is a gas, a motion or a camera sensor, and
`draw()` puts between the `Begin` and the `End` of its panel content of exactly one sensor
kind, its own: all content in the panel is of the entry's kind and there is some.  A gas
panel shows "GAS detected" iff `getDetected()` is true and "OK" iff it is false; a motion
panel always shows the counter line, the last-detection line iff the timestamp is non-null,
and "MOTION DETECTED" iff the detected flag is true; a camera panel shows the image label,
the Take picture button and the image. -/
theorem panel_content (T : CounterType) (env : BootEnv) (app0 : PIHome)
    (hc : (PIHome.PIHome env).2 = Except.ok app0) (steps : List Step) (inp : FrameInput)
    (j : Nat) (s : Sensor) (h : (run T steps app0).sensors_[j]? = some s) :
    (s.kind = SensorKind.MQ135Sensor ∨ s.kind = SensorKind.PIRSensor
        ∨ s.kind = SensorKind.CameraSensor)
      ∧ (∃ pre post, ((run T steps app0).draw T inp).1
            = pre ++ [Call.sensor j Method.name, Call.Begin s.st.name] ++ panelBody inp j s
                ++ [Call.End] ++ post
          ∧ sensorIdx Method.name pre = List.range j)
      ∧ (panelBody inp j s).all Call.inPanel = true
      ∧ (∀ c ∈ panelBody inp j s, c.contentKind = none ∨ c.contentKind = some s.kind)
      ∧ (∃ c ∈ panelBody inp j s, c.contentKind = some s.kind)
      ∧ (s.kind = SensorKind.MQ135Sensor →
          (Call.Text "GAS detected" [] ∈ panelBody inp j s ↔ s.st.getDetected = true)
            ∧ (Call.Text "OK" [] ∈ panelBody inp j s ↔ s.st.getDetected = false))
      ∧ (s.kind = SensorKind.PIRSensor →
          Call.Text "Detected counter %d" [Arg.int s.st.getData.count] ∈ panelBody inp j s
            ∧ (∀ t, Call.Text "Last detected local time and date: %s" [Arg.asctime t]
                  ∈ panelBody inp j s ↔ s.st.getData.timeinfo = some t)
            ∧ (Call.Text "MOTION DETECTED" [] ∈ panelBody inp j s
                ↔ s.st.getData.detected = true))
      ∧ (s.kind = SensorKind.CameraSensor →
          Call.Text "Image" [] ∈ panelBody inp j s
            ∧ Call.Button "Take picture" ∈ panelBody inp j s
            ∧ Call.Image (cameraState inp j s).st.getImage.textureID 320 240
                ∈ panelBody inp j s) := by
  have hkinds := reachable_kinds T env app0 hc steps
  have hmem : s.kind ∈ (run T steps app0).sensors_.map Sensor.kind :=
    List.mem_map.mpr ⟨s, List.getElem?_mem h, rfl⟩
  rw [hkinds] at hmem
  have hk : s.kind = SensorKind.MQ135Sensor ∨ s.kind = SensorKind.PIRSensor
      ∨ s.kind = SensorKind.CameraSensor := by
    simpa using hmem
  have hne : s.kind ≠ SensorKind.DHT11Sensor := by
    rcases hk with hk | hk | hk <;> rw [hk] <;> decide
  obtain ⟨h1, h2, h3, h4, _, h6, h7, h8⟩ :=
    panel_segment_content T (run T steps app0) inp j s h
  exact ⟨hk, h1, h2, h3, h4 hne, h6, h7, h8⟩

theorem panel_content_witness :
    (PIHome.PIHome goodEnv).2 = Except.ok goodApp
      ∧ ∃ s, (run int32 [Step.update alarmRead] goodApp).sensors_[0]? = some s
        ∧ s.kind = SensorKind.MQ135Sensor
        ∧ Call.Text "OK" [] ∈ panelBody idleFrame 0 s :=
  ⟨rfl, _, rfl, rfl,
    ((panel_content int32 goodEnv goodApp rfl [Step.update alarmRead] idleFrame 0 _
      rfl).2.2.2.2.2.1 rfl).2.mpr rfl⟩

/-! ## C10: the style-colour stack -/

/-- C10: during `draw()` the depth of the style-colour stack, relative to its value at the
start, never goes below 0 (nor above 4) and is 0 again at the end; the number of open panels
stays between 0 and 1 and is 0 at the end, so every `Begin` has its `End`; `getWarning()` is
read once per registry entry, in order; the log holds four pushes and four pops per warning
entry and no other; and for entry `j` the log reads: that one
`getWarning()` call, then four pushes if it returned true and none otherwise, then the
panel from `Begin` to `End` with no push, pop or further `getWarning()` inside, then four
pops if the value read before the panel was true and none otherwise, whatever
`takePicture()` did to the sensor in between. -/
theorem style_stack_balanced (T : CounterType) (app : PIHome) (inp : FrameInput) :
    (∀ k, 0 ≤ depth styleDelta ((app.draw T inp).1.take k)
        ∧ depth styleDelta ((app.draw T inp).1.take k) ≤ 4)
      ∧ depth styleDelta (app.draw T inp).1 = 0
      ∧ (∀ k, 0 ≤ depth windowDelta ((app.draw T inp).1.take k)
          ∧ depth windowDelta ((app.draw T inp).1.take k) ≤ 1)
      ∧ depth windowDelta (app.draw T inp).1 = 0
      ∧ sensorIdx Method.getWarning (app.draw T inp).1 = List.range app.sensors_.length
      ∧ (app.draw T inp).1.countP Call.isPush
          = 4 * app.sensors_.countP (fun s => s.st.getWarning)
      ∧ (app.draw T inp).1.countP Call.isPop
          = 4 * app.sensors_.countP (fun s => s.st.getWarning)
      ∧ ∀ j s, app.sensors_[j]? = some s →
          ∃ pre post n, (app.draw T inp).1
              = pre ++ [Call.sensor j Method.getWarning]
                  ++ (if s.st.getWarning = true then fourPushes (Chan.pulse n) else [])
                  ++ [Call.sensor j Method.name, Call.Begin s.st.name]
                  ++ panelBody inp j s
                  ++ [Call.End]
                  ++ (if s.st.getWarning = true then List.replicate 4 Call.PopStyleColor
                      else [])
                  ++ post
            ∧ sensorIdx Method.getWarning pre = List.range j
            ∧ (panelBody inp j s).all Call.inPanel = true := by
  have hd := draw_depth T app inp 0 4 0
  have hsi := drawLoop_sensorIdx T inp 0 app.sensors_ app.warnStep_
  have hcp := drawLoop_countP T inp 0 app.sensors_ app.warnStep_
  refine ⟨?_, hd.1.2, ?_, hd.2.2, ?_, ?_, ?_, ?_⟩
  · simpa using hd.1.1 (le_refl 0) (by norm_num)
  · have hd1 := draw_depth T app inp 0 1 0
    simpa using hd1.2.1 (le_refl 0) (by norm_num)
  · simp [PIHome.draw, sensorIdx_append, hsi.1, drawHeader, drawFooter, sensorIdx,
      List.range_eq_range']
  · simp [PIHome.draw, drawHeader, drawFooter, List.countP_cons, List.countP_append, hcp.1,
      Call.isPush]
  · simp [PIHome.draw, drawHeader, drawFooter, List.countP_cons, List.countP_append, hcp.2,
      Call.isPop]
  · intro j s h
    have hj : j < app.sensors_.length := (List.getElem?_eq_some.mp h).1
    exact ⟨_, _, _, draw_panel_segment T app inp j s h,
      (draw_pre_sensorIdx T app inp j (le_of_lt hj)).1, panelBody_inPanel inp j s⟩

theorem style_stack_balanced_witness :
    ∃ s, alarmApp.sensors_[2]? = some s
      ∧ s.st.getWarning = false ∧ (cameraState snapFrame 2 s).st.getWarning = true
      ∧ ∃ pre post, (alarmApp.draw int32 snapFrame).1
          = pre ++ [Call.sensor 2 Method.getWarning]
              ++ [Call.sensor 2 Method.name, Call.Begin s.st.name]
              ++ panelBody snapFrame 2 s
              ++ [Call.End]
              ++ post :=
  ⟨_, rfl, rfl, rfl, by
    obtain ⟨pre, post, n, h, _⟩ := (style_stack_balanced int32 alarmApp snapFrame).2.2.2.2.2.2.2 2 _ rfl
    exact ⟨pre, post, by simpa [quietState] using h⟩⟩

/-! ## C9: the red channel -/

/-- C9: in exact real arithmetic the red channel `red n = sin(n * 25 * pi / 180 + 1) / 4 + 1 / 2`
lies in [1/4, 3/4], hence in [0, 1], for every integer `n`; `red (n + 72) = red n`, and any
positive `k` with `red (m + k) = red m` for all integers `m` is at least 72.  The counter is 0
after construction, `update()` leaves it alone and `draw()` increments it once per warning
entry (adding their number to it, as long as the counter's type can hold the sum), so it is
still 0 when the first warning panel is drawn; the panel of a warning entry `j` is preceded
by four pushes whose colour is (red, 0, 0, 0.8) with the red channel taken at the counter
value after its increment, which is `warnStep_` + (number of warning entries before `j`) + 1
as long as the counter's type can hold it; so with `warnStep_ = 0` and no warning entry
before `j` the four pushes use `n = 1` and no push precedes them. -/
theorem red_channel (T : CounterType) (n : ℤ) (env : BootEnv) (app0 : PIHome)
    (hc : (PIHome.PIHome env).2 = Except.ok app0) (app : PIHome) (inp : FrameInput) (j : Nat)
    (s : Sensor) (hj : app.sensors_[j]? = some s) (hw : s.st.getWarning = true) :
    (1 / 4 ≤ red n ∧ red n ≤ 3 / 4)
      ∧ (0 ≤ red n ∧ red n ≤ 1)
      ∧ red (n + 72) = red n
      ∧ (∀ k : ℤ, 0 < k → (∀ m : ℤ, red (m + k) = red m) → 72 ≤ k)
      ∧ app0.warnStep_ = 0
      ∧ (∀ read : Nat → Sensor → SensorState, (app.update read).2.warnStep_ = app.warnStep_)
      ∧ (app.draw T inp).2.warnStep_
          = T.advance (app.sensors_.countP (fun s => s.st.getWarning)) app.warnStep_
      ∧ (app.warnStep_ + (app.sensors_.countP (fun s => s.st.getWarning) : Nat) ≤ T.top →
          (app.draw T inp).2.warnStep_
            = app.warnStep_ + (app.sensors_.countP (fun s => s.st.getWarning) : Nat))
      ∧ (∃ pre post, (app.draw T inp).1
            = pre ++ fourPushes (Chan.pulse
                  (T.incr (T.advance ((app.sensors_.take j).countP (fun s => s.st.getWarning))
                    app.warnStep_)))
                ++ [Call.sensor j Method.name, Call.Begin s.st.name] ++ post
          ∧ sensorIdx Method.name pre = List.range j)
      ∧ (app.warnStep_ + ((app.sensors_.take j).countP (fun s => s.st.getWarning) : Nat)
            < T.top →
          T.incr (T.advance ((app.sensors_.take j).countP (fun s => s.st.getWarning))
              app.warnStep_)
            = app.warnStep_ + ((app.sensors_.take j).countP (fun s => s.st.getWarning) : Nat)
                + 1)
      ∧ (app.warnStep_ = 0 → (∀ t ∈ app.sensors_.take j, t.st.getWarning = false) →
          ∃ pre post, (app.draw T inp).1
              = pre ++ fourPushes (Chan.pulse 1)
                  ++ [Call.sensor j Method.name, Call.Begin s.st.name] ++ post
            ∧ sensorIdx Method.name pre = List.range j
            ∧ ∀ c ∈ pre, styleDelta c = 0)
      ∧ (∀ r, fourPushes r
          = [Call.PushStyleColor ImGuiCol.WindowBg ⟨r, Chan.lit 0 10, Chan.lit 0 10, Chan.lit 8 10⟩,
             Call.PushStyleColor ImGuiCol.TitleBg ⟨r, Chan.lit 0 10, Chan.lit 0 10, Chan.lit 8 10⟩,
             Call.PushStyleColor ImGuiCol.TitleBgActive
               ⟨r, Chan.lit 0 10, Chan.lit 0 10, Chan.lit 8 10⟩,
             Call.PushStyleColor ImGuiCol.TitleBgCollapsed
               ⟨r, Chan.lit 0 10, Chan.lit 0 10, Chan.lit 8 10⟩])
      ∧ (∀ m : ℤ, (Chan.pulse m).val = red m)
      ∧ (Chan.lit 0 10).val = 0
      ∧ (Chan.lit 8 10).val = 0.8 := by
  have hb := red_bounds n
  have hlt : j < app.sensors_.length := (List.getElem?_eq_some.mp hj).1
  have hseg := draw_panel_segment T app inp j s hj
  have hpre := draw_pre_sensorIdx T app inp j (le_of_lt hlt)
  have hdraw : (app.draw T inp).2.warnStep_
      = T.advance (app.sensors_.countP (fun s => s.st.getWarning)) app.warnStep_ := by
    simp [PIHome.draw, drawLoop_warnStep]
  simp only [hw, if_true] at hseg
  refine ⟨hb, ⟨by linarith [hb.1], by linarith [hb.2]⟩, red_period n, red_min_period,
    (ctor_ok_exiting env app0 hc).2.1, fun _ => rfl, hdraw,
    fun hfit => by rw [hdraw, advance_of_le T _ _ hfit],
    ?_, ?_, ?_, fun _ => rfl, fun _ => rfl, ?_, ?_⟩
  · obtain ⟨post, hpost⟩ : ∃ post, (app.draw T inp).1
        = ((drawHeader ++ (drawLoop T inp 0 (app.sensors_.take j) app.warnStep_).calls)
            ++ [Call.sensor j Method.getWarning])
          ++ fourPushes (Chan.pulse
              (T.incr (T.advance ((app.sensors_.take j).countP (fun s => s.st.getWarning))
                app.warnStep_)))
          ++ [Call.sensor j Method.name, Call.Begin s.st.name] ++ post :=
      ⟨_, by rw [hseg]; simp only [List.append_assoc]; rfl⟩
    refine ⟨_, post, hpost, ?_⟩
    rw [sensorIdx_append, hpre.2]
    simp [sensorIdx]
  · intro hfit
    rw [advance_of_le T _ _ (le_of_lt hfit), incr_of_lt T _ hfit]
  · intro h0 hq
    have hcount : (app.sensors_.take j).countP (fun s => s.st.getWarning) = 0 := by
      rw [List.countP_eq_zero]
      intro t ht
      simp [hq t ht]
    have hone : T.incr (T.advance 0 app.warnStep_) = 1 := by
      have ht := T.top_pos
      rw [h0]
      simp only [CounterType.advance]
      rw [incr_of_lt T 0 ht]
      rfl
    rw [hcount, hone] at hseg
    obtain ⟨post, hpost⟩ : ∃ post, (app.draw T inp).1
        = ((drawHeader ++ (drawLoop T inp 0 (app.sensors_.take j) app.warnStep_).calls)
            ++ [Call.sensor j Method.getWarning])
          ++ fourPushes (Chan.pulse 1)
          ++ [Call.sensor j Method.name, Call.Begin s.st.name] ++ post :=
      ⟨_, by rw [hseg]; simp only [List.append_assoc]; rfl⟩
    refine ⟨_, post, hpost, ?_, ?_⟩
    · rw [sensorIdx_append, hpre.2]
      simp [sensorIdx]
    · intro c hc
      simp only [List.mem_append, List.mem_singleton] at hc
      rcases hc with (hc | hc) | rfl
      · simp [drawHeader] at hc
        rcases hc with rfl | rfl | rfl | rfl | rfl | rfl <;> rfl
      · exact drawLoop_no_push T inp 0 _ _ hq c hc
      · rfl
  · simp [Chan.val]
  · simp only [Chan.val]
    norm_num

theorem red_channel_witness :
    (PIHome.PIHome goodEnv).2 = Except.ok goodApp
      ∧ (∃ s, alarmApp.sensors_[0]? = some s ∧ s.st.getWarning = true
          ∧ ∃ pre post, (alarmApp.draw int32 idleFrame).1
              = pre ++ fourPushes (Chan.pulse 1)
                  ++ [Call.sensor 0 Method.name, Call.Begin s.st.name] ++ post
            ∧ sensorIdx Method.name pre = List.range 0
            ∧ ∀ c ∈ pre, styleDelta c = 0)
      ∧ red (0 + 72) = red 0 :=
  ⟨rfl,
    ⟨_, rfl, rfl,
      (red_channel int32 0 goodEnv goodApp rfl alarmApp idleFrame 0 _ rfl
        rfl).2.2.2.2.2.2.2.2.2.2.1 rfl (by simp)⟩,
    (red_channel int32 0 goodEnv goodApp rfl alarmApp idleFrame 0 _ rfl rfl).2.2.1⟩

end PiHome
